import Mathlib

set_option maxHeartbeats 1000000

/-!
Verification of the LUT format subsystem of the colour repository
(`src/colour/io/luts/sony_spi3d.py`, `src/colour/io/luts/resolve_cube.py`,
`src/colour/io/luts/__init__.py`).

Embedding conventions:

* Numeric values are embedded as `ℚ`.  Every numeral written to a LUT file
  is a decimal numeral with a fixed number of decimals, and such numerals
  denote rationals exactly; fixed-precision formatting is embedded as exact
  rounding to `d` decimal places (`fmtRound`).
* A LUT file is the list of its stripped, non-blank lines (`LUTFile`);
  blank lines are absent because both readers drop them.  A line is either
  a comment line (`FLine.comment c` models the on-disk line `"# " ++ c`;
  the readers run `line[1:].strip()`, which composed with the initial strip
  of the whole line yields exactly `strTrim c`) or a whitespace-split token
  list (`FLine.toks`).  A numeric token is carried as the rational it
  denotes (`Token.num`), any other token as its text (`Token.str`).
* Python exceptions are embedded as `Except PyErr`; the distinction between
  `ValueError` and other exception classes is preserved because the
  dispatch layer catches only `ValueError`.
* `numpy` arrays of shape `(s, s, s, 3)` are embedded as flat lists of
  colour triples in C (row-major) memory order together with the size `s`,
  exactly as numpy stores them; `order="F"` reshapes become explicit index
  transformations on that flat list.
-/

namespace Colour

/-- `str.lower()`: character-wise lowercasing (over the character list, so
that it evaluates inside the kernel). -/
def strLower (s : String) : String := ⟨s.data.map Char.toLower⟩

/-- `str.strip()`: remove leading and trailing whitespace (over the
character list, so that it evaluates inside the kernel). -/
def strTrim (s : String) : String :=
  ⟨((s.data.dropWhile Char.isWhitespace).reverse.dropWhile Char.isWhitespace).reverse⟩

/-- A colour triple (one `r g b` value row). -/
abbrev V3 := ℚ × ℚ × ℚ

/-- An integer grid-index triple `i j k`. -/
abbrev I3 := ℤ × ℤ × ℤ

/-- A whitespace-delimited token of a LUT file line: a numeric token is
carried as the rational number its decimal numeral denotes, any other token
as its text. -/
inductive Token where
  | str (s : String)
  | num (q : ℚ)
deriving DecidableEq

/-- A stripped, non-blank line of a LUT file.  `comment c` models the
on-disk line whose text after the leading `#` is `c`; `toks ts` models any
other line, split into tokens. -/
inductive FLine where
  | comment (text : String)
  | toks (ts : List Token)
deriving DecidableEq

/-- A LUT file: the list of its stripped, non-blank lines. -/
abbrev LUTFile := List FLine

/-- The Python exception classes raised by the LUT subsystem.  `attest`
raises `AssertionError`; numeric conversions and `numpy` reshapes raise
`ValueError`; the dispatch layer catches only `ValueError`. -/
inductive PyErr where
  | valueError (msg : String)
  | assertionError (msg : String)
  | keyError (msg : String)
  | indexError (msg : String)
  | unboundLocalError (msg : String)
deriving DecidableEq

instance {ε α : Type _} [DecidableEq ε] [DecidableEq α] : DecidableEq (Except ε α) :=
  fun x y =>
    match x, y with
    | .ok a, .ok b =>
      if h : a = b then .isTrue (by rw [h])
      else .isFalse (by intro hh; cases hh; exact h rfl)
    | .error a, .error b =>
      if h : a = b then .isTrue (by rw [h])
      else .isFalse (by intro hh; cases hh; exact h rfl)
    | .ok _, .error _ => .isFalse (by intro hh; cases hh)
    | .error _, .ok _ => .isFalse (by intro hh; cases hh)

/-- Modelled from the spec: the `LUT1D` table model (`table` of shape
`(size,)`, implicit domain = exactly 2 values, comments preserved in
order).  The class itself is not under `src/`. -/
structure LUT1D where
  table : List ℚ
  name : String
  domain : List ℚ
  comments : List String
deriving DecidableEq

/-- Modelled from the spec: the `LUT3x1D` table model (`table` of shape
`(size, 3)`, implicit domain = exactly 2 rows). -/
structure LUT3x1D where
  table : List V3
  name : String
  domain : List V3
  comments : List String
deriving DecidableEq

/-- Modelled from the spec: the `LUT3D` table model.  The numpy table of
shape `(size, size, size, 3)` is embedded as its flat list of triples in C
(row-major) memory order — the triple at grid index `(i, j, k)` sits at
flat position `i * size² + j * size + k` — together with the declared
`size`. -/
structure LUT3D where
  size : ℕ
  table : List V3
  name : String
  domain : List V3
  comments : List String
deriving DecidableEq

/-- Modelled from the spec: `size` of a `LUT3x1D` is derived from
`table.shape[0]`. -/
def LUT3x1D.size (l : LUT3x1D) : ℕ := l.table.length

/-- Modelled from the spec: `size` of a `LUT1D` is derived from
`table.shape[0]`. -/
def LUT1D.size (l : LUT1D) : ℕ := l.table.length

/-- One node of a `LUTSequence`: a 1D, 3x1D or 3D table operator. -/
inductive LUTNode where
  | oneD (l : LUT1D)
  | threeX1D (l : LUT3x1D)
  | threeD (l : LUT3D)
deriving DecidableEq

/-- A value produced or consumed by a codec: a bare LUT or a
`LUTSequence` (modelled from the spec as the ordered list of its nodes). -/
inductive LUTValue where
  | node (n : LUTNode)
  | seq (els : List LUTNode)
deriving DecidableEq

/-- The implicit default domain `[[0, 0, 0], [1, 1, 1]]`. -/
def defaultDomain3 : List V3 := [(0, 0, 0), (1, 1, 1)]

/-- Modelled from the spec: `is_domain_explicit()` holds iff the domain
does not follow the 2-row min/max convention (`len(domain) != 2`). -/
def LUTNode.is_domain_explicit : LUTNode → Bool
  | .oneD l => l.domain.length ≠ 2
  | .threeX1D l => l.domain.length ≠ 2
  | .threeD l => l.domain.length ≠ 2

/-- Modelled from the spec: `LUT3D.linear_table(size)` produces the uniform
`size × size × size × 3` sample grid of the default domain
`[[0, 0, 0], [1, 1, 1]]`: the grid point `(i, j, k)` carries the triple
`(i/(size-1), j/(size-1), k/(size-1))`.  Flat C order, `k` fastest. -/
def LUT3D.linear_table (s : ℕ) : List V3 :=
  (List.range s).flatMap fun (i : ℕ) =>
    (List.range s).flatMap fun (j : ℕ) =>
      (List.range s).map fun (k : ℕ) =>
        (((i : ℚ)) / ((s : ℚ) - 1), ((j : ℚ)) / ((s : ℚ) - 1),
          ((k : ℚ)) / ((s : ℚ) - 1))

/-- `as_int_array(np.around(LUT3D.linear_table(size) * (size - 1)))`
reshaped to `(-1, 3)`: the canonical index enumeration both SPI3D
directions compare against (`sony_spi3d.py` lines 114-122 and 214-216). -/
def canonical3DIndexes (s : ℕ) : List I3 :=
  (LUT3D.linear_table s).map fun v =>
    (round (v.1 * ((s : ℚ) - 1)), round (v.2.1 * ((s : ℚ) - 1)),
      round (v.2.2 * ((s : ℚ) - 1)))

/-- The plain enumeration of the grid `[0, s)³` in lexicographic order
(first axis slowest); proved equal to `canonical3DIndexes` for `2 ≤ s`. -/
def gridEnum (s : ℕ) : List I3 :=
  (List.range s).flatMap fun (i : ℕ) =>
    (List.range s).flatMap fun (j : ℕ) =>
      (List.range s).map fun (k : ℕ) => (((i : ℤ)), ((j : ℤ)), ((k : ℤ)))

/-- Fixed-precision decimal formatting at `d` decimals: the numeral the
writer emits denotes the rational `round(q·10^d)/10^d`.  (Python rounds
ties to even; the two conventions agree everywhere the claims need them
and both satisfy the half-ulp bound.) -/
def fmtRound (d : ℕ) (q : ℚ) : ℚ := (round (q * (10 : ℚ) ^ d) : ℚ) / (10 : ℚ) ^ d

/-- Format a value triple at `d` decimals. -/
def fmtV3 (d : ℕ) (v : V3) : V3 := (fmtRound d v.1, fmtRound d v.2.1, fmtRound d v.2.2)

/-- `float()` conversion of a token (`as_float_array` on one token):
numeric tokens convert exactly, any other token raises `ValueError`. -/
def Token.toQ : Token → Except PyErr ℚ
  | .num q => .ok q
  | .str s => .error (.valueError ("could not convert string to float: " ++ s))

/-- `int()` conversion of a token (`as_int_scalar` / `as_int_array` on one
token): an integral numeral converts exactly, a fractional numeral or a
non-numeric token raises `ValueError`. -/
def Token.toZ : Token → Except PyErr ℤ
  | .num q => if q.den = 1 then .ok q.num else .error (.valueError "invalid literal for int")
  | .str s => .error (.valueError ("invalid literal for int: " ++ s))

/-- Modelled from the spec: the path-to-title derivation utility
(`path_to_title`, an external collaborator of the codecs), abstracted as
the identity on the path string. -/
def path_to_title (path : String) : String := path

/-- Lexicographic order on index triples, first axis primary. -/
def idxLE (a b : I3) : Prop :=
  a.1 < b.1 ∨ (a.1 = b.1 ∧ (a.2.1 < b.2.1 ∨ (a.2.1 = b.2.1 ∧ a.2.2 ≤ b.2.2)))

/-- Strict lexicographic order on index triples. -/
def idxLT (a b : I3) : Prop :=
  a.1 < b.1 ∨ (a.1 = b.1 ∧ (a.2.1 < b.2.1 ∨ (a.2.1 = b.2.1 ∧ a.2.2 < b.2.2)))

instance : DecidableRel idxLE := fun a b => by unfold idxLE; infer_instance

instance : DecidableRel idxLT := fun a b => by unfold idxLT; infer_instance

/-- The sort relation used by `np.lexsort((idx[:,2], idx[:,1], idx[:,0]))`
on the collected `(index, value)` rows: lexicographic on the index, first
axis as the primary key. -/
def rowLE (a b : I3 × V3) : Prop := idxLE a.1 b.1

instance : DecidableRel rowLE := fun a b => by unfold rowLE; infer_instance

instance : IsTotal (I3 × V3) rowLE := by
  constructor
  intro a b
  simp only [rowLE, idxLE]
  omega

instance : IsTrans (I3 × V3) rowLE := by
  constructor
  intro a b c hab hbc
  simp only [rowLE, idxLE] at *
  omega

/-- The parser state of `read_LUT_SonySPI3D`: declared size (initially 2),
collected `(index, value)` rows, collected comments. -/
structure SonyState where
  size : ℤ
  rows : List (I3 × V3)
  comments : List String
deriving DecidableEq

/-- Initial `read_LUT_SonySPI3D` state. -/
def sonyInit : SonyState := ⟨2, [], []⟩

/-- `attest` message for a non-uniform size line. -/
def nonUniformMsg : String := "Non-uniform \"LUT\" shape is unsupported!"

/-- `attest` message for an index mismatch. -/
def idxMismatchMsg : String := "Indexes do not match expected \"LUT3D\" indexes!"

/-- One loop iteration of `read_LUT_SonySPI3D` (lines 94-109): comments are
collected; a 3-token line must be uniform and sets the size; a 6-token line
contributes an `(index, value)` row; other lines are ignored. -/
def sonyStep (st : SonyState) (l : FLine) : Except PyErr SonyState :=
  match l with
  | .comment c => .ok { st with comments := st.comments ++ [strTrim c] }
  | .toks ts =>
    match ts with
    | [a, b, c] =>
      if a = b ∧ a = c then
        match a.toZ with
        | .ok s => .ok { st with size := s }
        | .error e => .error e
      else .error (.assertionError nonUniformMsg)
    | [i1, i2, i3, v1, v2, v3] =>
      match v1.toQ, v2.toQ, v3.toQ, i1.toZ, i2.toZ, i3.toZ with
      | .ok q1, .ok q2, .ok q3, .ok z1, .ok z2, .ok z3 =>
        .ok { st with rows := st.rows ++ [((z1, z2, z3), (q1, q2, q3))] }
      | .error e, _, _, _, _, _ => .error e
      | _, .error e, _, _, _, _ => .error e
      | _, _, .error e, _, _, _ => .error e
      | _, _, _, .error e, _, _ => .error e
      | _, _, _, _, .error e, _ => .error e
      | _, _, _, _, _, .error e => .error e
    | _ => .ok st

/-- The line loop of `read_LUT_SonySPI3D`. -/
def sonyParse (file : LUTFile) : Except PyErr SonyState :=
  file.foldlM sonyStep sonyInit

/-- `read_LUT_SonySPI3D` (`sony_spi3d.py` lines 40-130): parse all lines,
sort the collected rows by index with `np.lexsort` (first axis primary),
require the sorted index sequence to equal the canonical enumeration, then
reshape the sorted values into the `(s, s, s, 3)` table.  An empty row list
makes `indexes[:, 2]` raise `IndexError`; the sorted values in canonical
order ARE the C-order flat table, so the reshape is the identity here. -/
def read_LUT_SonySPI3D (path : String) (file : LUTFile) : Except PyErr LUT3D :=
  match sonyParse file with
  | .error e => .error e
  | .ok st =>
    if st.rows = [] then .error (.indexError "too many indices for array")
    else
      let sorted := List.insertionSort rowLE st.rows
      if sorted.map Prod.fst = canonical3DIndexes st.size.toNat then
        .ok ⟨st.size.toNat, sorted.map Prod.snd, path_to_title path,
          defaultDomain3, st.comments⟩
      else .error (.assertionError idxMismatchMsg)

/-- The advisory notification issued by `write_LUT_SonySPI3D` when handed a
`LUTSequence` (the `repr` of the sequence appended by the source is
omitted). -/
def sonySeqAdvisory : String :=
  "\"LUT\" is a \"LUTSequence\" instance was passed, using first sequence \"LUT\":\n"

/-- A `<i> <j> <k> <r> <g> <b>` data line from an index triple and an
(already formatted) value triple. -/
def sonyDataLine (idx : I3) (v : V3) : FLine :=
  .toks [.num (idx.1 : ℚ), .num (idx.2.1 : ℚ), .num (idx.2.2 : ℚ),
    .num v.1, .num v.2.1, .num v.2.2]

/-- The body written by `write_LUT_SonySPI3D` (lines 207-224): header,
size line, one data row per canonical grid point (index from
`linear_table`, value from the flat table at the same enumeration
position, formatted at `d` decimals), then the comments.  The enumeration
over `indexes` with `table[i]` is embedded as a `zip`; the two lists have
equal length for every well-formed `LUT3D`. -/
def sonyWriteBody (l : LUT3D) (d : ℕ) : LUTFile :=
  [.toks [.str "SPILUT", .str "1.0"],
    .toks [.num 3, .num 3],
    .toks [.num (l.size : ℚ), .num (l.size : ℚ), .num (l.size : ℚ)]]
  ++ ((canonical3DIndexes l.size).zip l.table).map
      (fun p => sonyDataLine p.1 (fmtV3 d p.2))
  ++ l.comments.map .comment

/-- `attest` message: domain must be implicit. -/
def domImplicitMsg : String := "\"LUT\" domain must be implicit!"

/-- `attest` message: the LUT must be a `LUT3D`. -/
def must3DMsg : String := "\"LUT\" must be either a 3D \"LUT\"!"

/-- `attest` message: the domain must be the default. -/
def domDefaultMsg : String := "\"LUT\" domain must be [[0, 0, 0], [1, 1, 1]]!"

/-- The validation and body production of `write_LUT_SonySPI3D` on the
LUT actually used (lines 181-226): `attest` implicit domain, `attest` the
`LUT3D` rank, `attest` the default domain, then produce the body. -/
def sonyWriteChecked (LUTxD : LUTNode) (d : ℕ) : Except PyErr LUTFile :=
  if LUTxD.is_domain_explicit then
    .error (.assertionError domImplicitMsg)
  else
    match LUTxD with
    | .threeD l =>
      if l.domain = defaultDomain3 then .ok (sonyWriteBody l d)
      else .error (.assertionError domDefaultMsg)
    | _ => .error (.assertionError must3DMsg)

/-- `write_LUT_SonySPI3D` (`sony_spi3d.py` lines 133-226): a `LUTSequence`
argument is replaced by its first element with an advisory usage warning
(and an empty sequence raises `IndexError` at `LUT[0]`); the used LUT then
goes through `sonyWriteChecked`. -/
def write_LUT_SonySPI3D (LUT : LUTValue) (d : ℕ) :
    List String × Except PyErr LUTFile :=
  match LUT with
  | .node n => ([], sonyWriteChecked n d)
  | .seq [] => ([sonySeqAdvisory], .error (.indexError "list index out of range"))
  | .seq (e :: _) => ([sonySeqAdvisory], sonyWriteChecked e d)

/-- Text of a token, for the `TITLE` directive (`" ".join(tokens[1:])`). -/
def Token.text : Token → String
  | .str s => s
  | .num q => toString q

/-- `" ".join(tokens[1:])[1:-1]`: join the remaining tokens and strip the
surrounding quote characters. -/
def titleOfTokens (ts : List Token) : String :=
  ((String.intercalate " " (ts.map Token.text)).drop 1).dropRight 1

/-- `float()` conversion of a token list. -/
def tokensToQs (ts : List Token) : Except PyErr (List ℚ) := ts.mapM Token.toQ

/-- `tstack([a, a, a])` for `a = tokens[1:]` of an `INPUT_RANGE` directive:
each scalar becomes one row with three equal components. -/
def tstack3 (qs : List ℚ) : List V3 := qs.map fun q => (q, q, q)

/-- The parser state of `read_LUT_ResolveCube` (lines 142-148). -/
structure RState where
  title : String
  domain3x1D : Option (List V3)
  domain3D : Option (List V3)
  size3x1D : ℤ
  size3D : ℤ
  data : List (List Token)
  comments : List String
  has3x1D : Bool
  has3D : Bool
deriving DecidableEq

/-- Initial `read_LUT_ResolveCube` state: the title defaults to the
path-derived title, sizes to 2, flags unset. -/
def rInit (path : String) : RState :=
  ⟨path_to_title path, none, none, 2, 2, [], [], false, false⟩

/-- One loop iteration of `read_LUT_ResolveCube` (lines 152-176):
comments are collected; `TITLE`, `LUT_1D_INPUT_RANGE`, `LUT_3D_INPUT_RANGE`,
`LUT_1D_SIZE` and `LUT_3D_SIZE` directives update the state; every other
line is a data row. -/
def rStep (st : RState) (l : FLine) : Except PyErr RState :=
  match l with
  | .comment c => .ok { st with comments := st.comments ++ [strTrim c] }
  | .toks ts =>
    match ts with
    | [] => .ok st
    | t0 :: rest =>
      if t0 = .str "TITLE" then
        .ok { st with title := titleOfTokens rest }
      else if t0 = .str "LUT_1D_INPUT_RANGE" then
        match tokensToQs rest with
        | .ok qs => .ok { st with domain3x1D := some (tstack3 qs) }
        | .error e => .error e
      else if t0 = .str "LUT_3D_INPUT_RANGE" then
        match tokensToQs rest with
        | .ok qs => .ok { st with domain3D := some (tstack3 qs) }
        | .error e => .error e
      else if t0 = .str "LUT_1D_SIZE" then
        match rest with
        | [] => .error (.indexError "list index out of range")
        | t :: _ =>
          match t.toZ with
          | .ok n => .ok { st with has3x1D := true, size3x1D := n }
          | .error e => .error e
      else if t0 = .str "LUT_3D_SIZE" then
        match rest with
        | [] => .error (.indexError "list index out of range")
        | t :: _ =>
          match t.toZ with
          | .ok n => .ok { st with has3D := true, size3D := n }
          | .error e => .error e
      else
        .ok { st with data := st.data ++ [ts] }

/-- The line loop of `read_LUT_ResolveCube`. -/
def rParse (path : String) (file : LUTFile) : Except PyErr RState :=
  file.foldlM rStep (rInit path)

/-- `as_float_array(data)`: a ragged row list raises `ValueError`
(inhomogeneous array), as does a non-numeric token. -/
def asFloatTable (data : List (List Token)) : Except PyErr (List (List ℚ)) :=
  match data with
  | [] => .ok []
  | d :: _ =>
    if data.all (fun r => r.length = d.length) then data.mapM tokensToQs
    else .error (.valueError "setting an array element with a sequence")

/-- Interpret float rows as colour triples.  The source keeps the numpy
array and lets the `LUT3x1D` shape convention / the `(s, s, s, 3)` reshape
constrain the width to 3; rows of any other width raise `ValueError`
there.  The claims only concern 3-wide rows. -/
def toV3Rows (rows : List (List ℚ)) : Except PyErr (List V3) :=
  rows.mapM fun r =>
    match r with
    | [a, b, c] => .ok ((a, b, c) : V3)
    | _ => .error (.valueError "cannot reshape array")

/-- `table.reshape((s, s, s, 3), order="F")` on a `(s³, 3)` row list: the
triple at grid index `(i, j, k)` (flat C position `i·s² + j·s + k`) is data
row `i + j·s + k·s²` — first axis fastest on disk. -/
def reshapeF (s : ℕ) (rows : List V3) : List V3 :=
  (List.range (s * s * s)).map fun m =>
    rows.getD (m / (s * s) + ((m / s) % s) * s + (m % s) * (s * s)) (0, 0, 0)

/-- `table.reshape([-1, 3], order="F")` on the in-memory `(s, s, s, 3)`
table: file row `m = i + j·s + k·s²` is the triple at grid index
`(i, j, k)` (flat C position `i·s² + j·s + k`) — the write-side inverse of
`reshapeF`. -/
def flattenF (s : ℕ) (tableC : List V3) : List V3 :=
  (List.range (s * s * s)).map fun m =>
    tableC.getD ((m % s) * (s * s) + ((m / s) % s) * s + m / (s * s)) (0, 0, 0)

/-- The composite (shaper + cube) branch of `read_LUT_ResolveCube` (lines
181-201): the first `size_3x1D` float rows become the `LUT3x1D` shaper
(constructed without comments), the remaining rows are reshaped
first-axis-fastest into the `LUT3D` cube, which receives every comment of
the file in order. -/
def resolveComposite (st : RState) (tbl : List (List ℚ)) : Except PyErr LUTValue :=
  match toV3Rows tbl with
  | .error e => .error e
  | .ok v =>
    if (v.drop st.size3x1D.toNat).length
        = st.size3D.toNat * st.size3D.toNat * st.size3D.toNat then
      .ok (.seq [
        .threeX1D ⟨v.take st.size3x1D.toNat, st.title ++ " - Shaper",
          st.domain3x1D.getD defaultDomain3, []⟩,
        .threeD ⟨st.size3D.toNat,
          reshapeF st.size3D.toNat (v.drop st.size3x1D.toNat),
          st.title ++ " - Cube", st.domain3D.getD defaultDomain3,
          st.comments⟩])
    else .error (.valueError "cannot reshape array")

/-- The shaper-only branch of `read_LUT_ResolveCube` (lines 202-203). -/
def resolveShaperOnly (st : RState) (tbl : List (List ℚ)) : Except PyErr LUTValue :=
  match toV3Rows tbl with
  | .error e => .error e
  | .ok v =>
    .ok (.node (.threeX1D ⟨v, st.title, st.domain3x1D.getD defaultDomain3,
      st.comments⟩))

/-- The cube-only branch of `read_LUT_ResolveCube` (lines 204-209). -/
def resolveCubeOnly (st : RState) (tbl : List (List ℚ)) : Except PyErr LUTValue :=
  match toV3Rows tbl with
  | .error e => .error e
  | .ok v =>
    if v.length = st.size3D.toNat * st.size3D.toNat * st.size3D.toNat then
      .ok (.node (.threeD ⟨st.size3D.toNat, reshapeF st.size3D.toNat v,
        st.title, st.domain3D.getD defaultDomain3, st.comments⟩))
    else .error (.valueError "cannot reshape array")

/-- Table conversion and directive dispatch of `read_LUT_ResolveCube`
(lines 178-211): `as_float_array` on the data rows, then the branch
selected by the `has_3x1D` / `has_3D` flags; with neither directive the
`return LUT` of the source hits an unassigned variable
(`UnboundLocalError`). -/
def resolveBuild (st : RState) : Except PyErr LUTValue :=
  match asFloatTable st.data with
  | .error e => .error e
  | .ok tbl =>
    if st.has3x1D && st.has3D then resolveComposite st tbl
    else if st.has3x1D then resolveShaperOnly st tbl
    else if st.has3D then resolveCubeOnly st tbl
    else .error (.unboundLocalError "local variable referenced before assignment")

/-- `read_LUT_ResolveCube` (`resolve_cube.py` lines 40-211): parse all
lines, convert the data rows to floats, then build a `LUT3x1D`, a `LUT3D`
or their `LUTSequence` according to which size directives were seen. -/
def read_LUT_ResolveCube (path : String) (file : LUTFile) : Except PyErr LUTValue :=
  match rParse path file with
  | .error e => .error e
  | .ok st => resolveBuild st

/-- Modelled from the spec: `as_LUT(LUT3x1D)` promotion of a `LUT1D` —
broadcast the single channel to three identical channels (spec 4.1). -/
def promote1D (l : LUT1D) : LUT3x1D :=
  ⟨l.table.map (fun q => (q, q, q)), l.name, l.domain.map (fun q => (q, q, q)),
    l.comments⟩

/-- Modelled from the spec: the placeholder `LUT3x1D()` default instance
used by `write_LUT_ResolveCube` for a cube-only write; only its implicit
default domain and empty comments are ever consulted. -/
def placeholder3x1D : LUT3x1D := ⟨[], "Unity", defaultDomain3, []⟩

/-- Modelled from the spec: the placeholder `LUT3D()` default instance used
for a shaper-only write; only its implicit default domain and empty
comments are ever consulted. -/
def placeholder3D : LUT3D := ⟨33, [], "Unity", defaultDomain3, []⟩

/-- The shaper/cube pair assembled by `write_LUT_ResolveCube` lines
290-319, with the `has_3x1D` / `has_3D` flags and the derived name. -/
structure RPair where
  L0 : LUT3x1D
  L1 : LUT3D
  has3x1D : Bool
  has3D : Bool
  name : String
deriving DecidableEq

/-- `attest` message for a malformed sequence. -/
def seqArityMsg : String := "LUTSequence must be 1D + 3D or 3x1D + 3D!"

/-- `write_LUT_ResolveCube` lines 290-319: a sequence must be exactly
shaper (1D or 3x1D, a 1D being promoted) plus cube; a bare LUT is paired
with a placeholder. -/
def resolveAssemble : LUTValue → Except PyErr RPair
  | .seq [.oneD l, .threeD c] =>
    .ok ⟨promote1D l, c, true, true, l.name ++ " - " ++ c.name⟩
  | .seq [.threeX1D l, .threeD c] =>
    .ok ⟨l, c, true, true, l.name ++ " - " ++ c.name⟩
  | .seq _ => .error (.assertionError seqArityMsg)
  | .node (.oneD l) => .ok ⟨promote1D l, placeholder3D, true, false, l.name⟩
  | .node (.threeX1D l) => .ok ⟨l, placeholder3D, true, false, l.name⟩
  | .node (.threeD l) => .ok ⟨placeholder3x1D, l, false, true, l.name⟩

/-- `len(np.unique(domain))`: the number of distinct scalars occurring in a
domain array. -/
def uniqueCount (rows : List V3) : ℕ :=
  ((rows.flatMap fun v => [v.1, v.2.1, v.2.2]).dedup).length

/-- A `<r> <g> <b>` cube data line at `d` decimals. -/
def resolveDataLine (d : ℕ) (v : V3) : FLine :=
  .toks [.num (fmtRound d v.1), .num (fmtRound d v.2.1), .num (fmtRound d v.2.2)]

/-- An `INPUT_RANGE` directive line from `domain[0][0]` and `domain[1][0]`
at `d` decimals. -/
def rangeLine (kw : String) (d : ℕ) (dom : List V3) : FLine :=
  .toks [.str kw, .num (fmtRound d (dom.headD (0, 0, 0)).1),
    .num (fmtRound d ((dom.getD 1 (0, 0, 0)).1))]

/-- The body written by `write_LUT_ResolveCube` lines 359-409: title, the
comments of both elements, size directives (with an `INPUT_RANGE` directive
only when the domain deviates from the default), the shaper rows, then the
cube rows flattened first-axis-fastest.  The blank separator line after the
shaper rows is dropped by every reader and absent from the file model. -/
def resolveWriteBody (p : RPair) (d : ℕ) : LUTFile :=
  [.toks [.str "TITLE", .str ("\"" ++ p.name ++ "\"")]]
  ++ p.L0.comments.map .comment
  ++ p.L1.comments.map .comment
  ++ (if p.has3x1D then
        [.toks [.str "LUT_1D_SIZE", .num (p.L0.table.length : ℚ)]]
        ++ (if p.L0.domain = defaultDomain3 then []
            else [rangeLine "LUT_1D_INPUT_RANGE" d p.L0.domain])
      else [])
  ++ (if p.has3D then
        [.toks [.str "LUT_3D_SIZE", .num (p.L1.size : ℚ)]]
        ++ (if p.L1.domain = defaultDomain3 then []
            else [rangeLine "LUT_3D_INPUT_RANGE" d p.L1.domain])
      else [])
  ++ (if p.has3x1D then p.L0.table.map (resolveDataLine d) else [])
  ++ (if p.has3D then (flattenF p.L1.size p.L1.table).map (resolveDataLine d) else [])

/-- `write_LUT_ResolveCube` (`resolve_cube.py` lines 214-409): assemble the
shaper/cube pair, `attest` that both domains are implicit (exactly 2 rows)
and 2-valued, that the shaper size is in `[2, 65536]` and the cube size in
`[2, 256]` (each bound only checked when the corresponding element is
written), then produce the file body. -/
def write_LUT_ResolveCube (LUT : LUTValue) (d : ℕ) : Except PyErr LUTFile :=
  match resolveAssemble LUT with
  | .error e => .error e
  | .ok p =>
    if p.L0.domain.length ≠ 2 then
      .error (.assertionError "\"LUT\" domain must be implicit!")
    else if p.L1.domain.length ≠ 2 then
      .error (.assertionError "\"LUT\" domain must be implicit!")
    else if ¬(uniqueCount p.L0.domain = 2 ∧ uniqueCount p.L1.domain = 2) then
      .error (.assertionError "\"LUT\" domain must be 1D!")
    else if p.has3x1D ∧ ¬(2 ≤ p.L0.size ∧ p.L0.size ≤ 65536) then
      .error (.assertionError "Shaper size must be in domain [2, 65536]!")
    else if p.has3D ∧ ¬(2 ≤ p.L1.size ∧ p.L1.size ≤ 256) then
      .error (.assertionError "Cube size must be in domain [2, 256]!")
    else .ok (resolveWriteBody p d)

/-- `EXTENSION_TO_LUT_FORMAT_MAPPING` (`io/luts/__init__.py` lines 74-84). -/
def EXTENSION_TO_LUT_FORMAT_MAPPING : List (String × String) :=
  [(".cube", "Iridas Cube"), (".spi1d", "Sony SPI1D"), (".spi3d", "Sony SPI3D"),
    (".spimtx", "Sony SPImtx"), (".csp", "Cinespace")]

/-- The names registered in `LUT_READ_METHODS` (lines 89-98). -/
def LUT_READ_METHOD_NAMES : List String :=
  ["Cinespace", "Iridas Cube", "Resolve Cube", "Sony SPI1D", "Sony SPI3D",
    "Sony SPImtx"]

/-- Modelled from the spec: `CaseInsensitiveMapping` lookup — keys are
matched after lowercasing; a missing key raises `KeyError`. -/
def lookupCI (m : List (String × String)) (k : String) : Except PyErr String :=
  match m.find? (fun p => strLower p.1 = strLower k) with
  | some p => .ok p.2
  | none => .error (.keyError k)

/-- Modelled from the spec: `validate_method` — the method name is matched
case-insensitively against the registered set and returned lowercased; an
unknown name raises `ValueError`. -/
def validate_method (m : String) (methods : List String) : Except PyErr String :=
  if methods.any (fun x => strLower x = strLower m) then .ok (strLower m)
  else .error (.valueError ("Invalid method: " ++ m))

/-- The codec functions `read_LUT` dispatches to (`LUT_READ_METHODS`).
`iridas_cube.py` and the three remaining codecs are not under `src/`, so
the dispatch layer is verified for every possible codec behaviour: the
record holds arbitrary functions from file content to result. -/
structure ReadCodecs where
  cinespace : LUTFile → Except PyErr LUTValue
  iridas : LUTFile → Except PyErr LUTValue
  resolve : LUTFile → Except PyErr LUTValue
  spi1d : LUTFile → Except PyErr LUTValue
  spi3d : LUTFile → Except PyErr LUTValue
  spimtx : LUTFile → Except PyErr LUTValue

/-- `LUT_READ_METHODS[method]` after `validate_method` lowercasing. -/
def readMethodFn (c : ReadCodecs) : String → (LUTFile → Except PyErr LUTValue)
  | "cinespace" => c.cinespace
  | "iridas cube" => c.iridas
  | "resolve cube" => c.resolve
  | "sony spi1d" => c.spi1d
  | "sony spi3d" => c.spi3d
  | "sony spimtx" => c.spimtx
  | _ => fun _ => .error (.keyError "unknown method")

/-- Method resolution of `read_LUT` (lines 211-218): an omitted method is
derived from the path extension via `EXTENSION_TO_LUT_FORMAT_MAPPING`, then
validated case-insensitively. -/
def resolvedReadMethod (ext : String) (method : Option String) : Except PyErr String :=
  match method with
  | some m => validate_method m LUT_READ_METHOD_NAMES
  | none =>
    match lookupCI EXTENSION_TO_LUT_FORMAT_MAPPING ext with
    | .ok m => validate_method m LUT_READ_METHOD_NAMES
    | .error e => .error e

/-- `read_LUT` (`io/luts/__init__.py` lines 108-231): resolve the method,
run the codec, and — only when the resolved method is `"iridas cube"` and
the codec raised `ValueError` — retry once with the `"Resolve Cube"`
codec, whose outcome is returned as is.  Any other failure propagates
unchanged.  The path is abstracted to its `splitext` extension. -/
def read_LUT (c : ReadCodecs) (ext : String) (file : LUTFile)
    (method : Option String) : Except PyErr LUTValue :=
  match resolvedReadMethod ext method with
  | .error e => .error e
  | .ok m =>
    match readMethodFn c m file with
    | .error (.valueError msg) =>
      if m = "iridas cube" then c.resolve file
      else .error (.valueError msg)
    | r => r

/-! ### Helper lemmas -/

theorem idxLT_mk {a b c d e f : ℤ} :
    idxLT (a, b, c) (d, e, f) ↔ (a < d ∨ (a = d ∧ (b < e ∨ (b = e ∧ c < f)))) :=
  Iff.rfl

theorem idxLE_mk {a b c d e f : ℤ} :
    idxLE (a, b, c) (d, e, f) ↔ (a < d ∨ (a = d ∧ (b < e ∨ (b = e ∧ c ≤ f)))) :=
  Iff.rfl

theorem canonical3DIndexes_eq_gridEnum (s : ℕ) (hs : 2 ≤ s) :
    canonical3DIndexes s = gridEnum s := by
  have h2 : (2 : ℚ) ≤ (s : ℚ) := by exact_mod_cast hs
  have hne : ((s : ℚ) - 1) ≠ 0 := by linarith
  have hpoint : ∀ i : ℕ, round (((i : ℚ)) / ((s : ℚ) - 1) * ((s : ℚ) - 1)) = (i : ℤ) := by
    intro i
    rw [div_mul_cancel₀ _ hne, round_natCast]
  unfold canonical3DIndexes LUT3D.linear_table gridEnum
  rw [List.map_flatMap]
  apply congrArg (List.flatMap (List.range s))
  funext i
  rw [List.map_flatMap]
  apply congrArg (List.flatMap (List.range s))
  funext j
  rw [List.map_map]
  apply congrArg (fun f => List.map f (List.range s))
  funext k
  simp only [Function.comp_apply]
  rw [hpoint i, hpoint j, hpoint k]

theorem gridEnum_length (s : ℕ) : (gridEnum s).length = s * s * s := by
  unfold gridEnum
  rw [List.length_flatMap]
  have hinner : ∀ i : ℕ,
      ((List.range s).flatMap fun (j : ℕ) =>
        (List.range s).map fun (k : ℕ) =>
          (((i : ℤ)), ((j : ℤ)), ((k : ℤ)))).length = s * s := by
    intro i
    rw [List.length_flatMap]
    have heq : (List.map
        (List.length ∘ fun (j : ℕ) => (List.range s).map fun (k : ℕ) =>
          (((i : ℤ)), ((j : ℤ)), ((k : ℤ)))) (List.range s))
        = List.map (fun _ => s) (List.range s) := by
      apply List.map_congr_left
      intro j _
      simp
    rw [heq, List.map_const', List.sum_replicate, List.length_range, smul_eq_mul]
  have heq2 : (List.map
      (List.length ∘ fun (i : ℕ) => (List.range s).flatMap fun (j : ℕ) =>
        (List.range s).map fun (k : ℕ) =>
          (((i : ℤ)), ((j : ℤ)), ((k : ℤ)))) (List.range s))
      = List.map (fun _ => s * s) (List.range s) := by
    apply List.map_congr_left
    intro i _
    simpa using hinner i
  rw [heq2, List.map_const', List.sum_replicate, List.length_range, smul_eq_mul,
    Nat.mul_comm s (s * s)]

theorem gridEnum_mem_shape {s : ℕ} {x : I3} (hx : x ∈ gridEnum s) :
    0 ≤ x.1 ∧ x.1 < s ∧ 0 ≤ x.2.1 ∧ x.2.1 < s ∧ 0 ≤ x.2.2 ∧ x.2.2 < s := by
  unfold gridEnum at hx
  simp only [List.mem_flatMap, List.mem_map, List.mem_range] at hx
  obtain ⟨i, hi, j, hj, k, hk, rfl⟩ := hx
  refine ⟨?_, ?_, ?_, ?_, ?_, ?_⟩ <;> simp <;> omega

theorem gridEnum_pairwise (s : ℕ) : List.Pairwise idxLT (gridEnum s) := by
  unfold gridEnum
  rw [List.pairwise_flatMap]
  constructor
  · intro i _
    rw [List.pairwise_flatMap]
    constructor
    · intro j _
      rw [List.pairwise_map]
      exact (List.pairwise_lt_range s).imp fun h => by
        rw [idxLT_mk]
        omega
    · exact (List.pairwise_lt_range s).imp fun h x hx y hy => by
        simp only [List.mem_map, List.mem_range] at hx hy
        obtain ⟨k, _, rfl⟩ := hx
        obtain ⟨k1, _, rfl⟩ := hy
        rw [idxLT_mk]
        omega
  · exact (List.pairwise_lt_range s).imp fun h x hx y hy => by
      simp only [List.mem_flatMap, List.mem_map, List.mem_range] at hx hy
      obtain ⟨j, _, k, _, rfl⟩ := hx
      obtain ⟨j1, _, k1, _, rfl⟩ := hy
      rw [idxLT_mk]
      omega

theorem gridEnum_pairwise_le (s : ℕ) : List.Pairwise idxLE (gridEnum s) :=
  (gridEnum_pairwise s).imp fun {a b} h => by
    obtain ⟨a1, a2, a3⟩ := a
    obtain ⟨b1, b2, b3⟩ := b
    rw [idxLT_mk] at h
    rw [idxLE_mk]
    omega

theorem abs_fmtRound_sub (d : ℕ) (q : ℚ) :
    |fmtRound d q - q| ≤ 1 / (2 * (10 : ℚ) ^ d) := by
  unfold fmtRound
  have hp : (0 : ℚ) < (10 : ℚ) ^ d := by positivity
  have h := abs_sub_round (q * (10 : ℚ) ^ d)
  rw [abs_sub_comm] at h
  have key : (round (q * (10 : ℚ) ^ d) : ℚ) / (10 : ℚ) ^ d - q
      = ((round (q * (10 : ℚ) ^ d) : ℚ) - q * (10 : ℚ) ^ d) / (10 : ℚ) ^ d := by
    field_simp
    ring
  rw [key, abs_div, abs_of_pos hp, div_le_div_iff₀ hp (by positivity)]
  calc |(round (q * (10 : ℚ) ^ d) : ℚ) - q * (10 : ℚ) ^ d| * (2 * (10 : ℚ) ^ d)
      ≤ (1 / 2) * (2 * (10 : ℚ) ^ d) := by
        apply mul_le_mul_of_nonneg_right h
        positivity
    _ = 1 * (10 : ℚ) ^ d := by ring

theorem rows_pairwise_of_fst {l : List (I3 × V3)}
    (h : List.Pairwise idxLE (l.map Prod.fst)) : List.Pairwise rowLE l :=
  List.Pairwise.of_map Prod.fst (fun _ _ hh => hh) h

theorem insertionSort_of_pairwise {l : List (I3 × V3)}
    (h : List.Pairwise rowLE l) : List.insertionSort rowLE l = l :=
  List.Sorted.insertionSort_eq h

theorem sonyStep_comment (st : SonyState) (c : String) :
    sonyStep st (.comment c) = .ok { st with comments := st.comments ++ [strTrim c] } :=
  rfl

theorem sonyStep_dataLine (st : SonyState) (idx : I3) (v : V3) :
    sonyStep st (sonyDataLine idx v) = .ok { st with rows := st.rows ++ [(idx, v)] } := by
  obtain ⟨i, j, k⟩ := idx
  obtain ⟨a, b, c⟩ := v
  simp [sonyStep, sonyDataLine, Token.toZ, Token.toQ]

theorem sonyParse_dataLines (ps : List (I3 × V3)) (st : SonyState) :
    List.foldlM sonyStep st (ps.map fun p => sonyDataLine p.1 p.2)
      = .ok { st with rows := st.rows ++ ps } := by
  induction ps generalizing st with
  | nil => simp [pure, Except.pure]
  | cons p ps ih =>
    rw [List.map_cons, List.foldlM_cons, sonyStep_dataLine]
    show List.foldlM sonyStep _ _ = _
    rw [ih]
    simp

theorem sonyParse_commentLines (cs : List String) (st : SonyState) :
    List.foldlM sonyStep st (cs.map FLine.comment)
      = .ok { st with comments := st.comments ++ cs.map strTrim } := by
  induction cs generalizing st with
  | nil => simp [pure, Except.pure]
  | cons c cs ih =>
    rw [List.map_cons, List.foldlM_cons, sonyStep_comment]
    show List.foldlM sonyStep _ _ = _
    rw [ih]
    simp

theorem sonyStep_sizeLine (st : SonyState) (s : ℕ) :
    sonyStep st (.toks [.num (s : ℚ), .num (s : ℚ), .num (s : ℚ)])
      = .ok { st with size := (s : ℤ) } := by
  simp [sonyStep, Token.toZ]

theorem exceptBind_ok {ε α β : Type _} (a : α) (f : α → Except ε β) :
    (Except.ok a >>= f) = f a := rfl

theorem exceptBind_error {ε α β : Type _} (e : ε) (f : α → Except ε β) :
    ((Except.error e : Except ε α) >>= f) = .error e := rfl

theorem sonyParse_writeBody (l : LUT3D) (d : ℕ) (hs2 : 2 ≤ l.size) :
    sonyParse (sonyWriteBody l d)
      = .ok ⟨(l.size : ℤ),
          ((gridEnum l.size).zip l.table).map (fun p => (p.1, fmtV3 d p.2)),
          l.comments.map strTrim⟩ := by
  unfold sonyParse sonyWriteBody
  rw [canonical3DIndexes_eq_gridEnum _ hs2]
  have hmap : ((gridEnum l.size).zip l.table).map
      (fun p => sonyDataLine p.1 (fmtV3 d p.2))
      = (((gridEnum l.size).zip l.table).map (fun p => (p.1, fmtV3 d p.2))).map
          (fun p => sonyDataLine p.1 p.2) := by
    rw [List.map_map]
    rfl
  rw [hmap, List.foldlM_append, List.foldlM_append]
  rw [List.foldlM_cons,
    show sonyStep sonyInit (.toks [.str "SPILUT", .str "1.0"]) = .ok sonyInit from rfl,
    exceptBind_ok, List.foldlM_cons,
    show sonyStep sonyInit (.toks [.num 3, .num 3]) = .ok sonyInit from rfl,
    exceptBind_ok, List.foldlM_cons, sonyStep_sizeLine, exceptBind_ok,
    List.foldlM_nil]
  rw [show (pure { sonyInit with size := (l.size : ℤ) } :
      Except PyErr SonyState) = .ok ⟨(l.size : ℤ), [], []⟩ from rfl]
  rw [exceptBind_ok, sonyParse_dataLines, exceptBind_ok, sonyParse_commentLines]
  rfl

theorem getD_map_fmtV3_close (d : ℕ) (t : List V3) (m : ℕ) :
    |((t.map (fmtV3 d)).getD m (0, 0, 0)).1 - (t.getD m (0, 0, 0)).1|
        ≤ 1 / (2 * (10 : ℚ) ^ d)
    ∧ |((t.map (fmtV3 d)).getD m (0, 0, 0)).2.1 - (t.getD m (0, 0, 0)).2.1|
        ≤ 1 / (2 * (10 : ℚ) ^ d)
    ∧ |((t.map (fmtV3 d)).getD m (0, 0, 0)).2.2 - (t.getD m (0, 0, 0)).2.2|
        ≤ 1 / (2 * (10 : ℚ) ^ d) := by
  rcases h : t[m]? with _ | v
  · simp only [List.getD_eq_getElem?_getD, List.getElem?_map, h, Option.map_none',
      Option.getD_none, sub_self, abs_zero]
    refine ⟨by positivity, by positivity, by positivity⟩
  · simp only [List.getD_eq_getElem?_getD, List.getElem?_map, h, Option.map_some',
      Option.getD_some, fmtV3]
    exact ⟨abs_fmtRound_sub d v.1, abs_fmtRound_sub d v.2.1, abs_fmtRound_sub d v.2.2⟩

theorem sony_write_3D_ok (l : LUT3D) (d : ℕ) (hdom : l.domain = defaultDomain3) :
    write_LUT_SonySPI3D (.node (.threeD l)) d = ([], .ok (sonyWriteBody l d)) := by
  simp [write_LUT_SonySPI3D, sonyWriteChecked, LUTNode.is_domain_explicit, hdom,
    defaultDomain3]

theorem read_sonyWriteBody (l : LUT3D) (d : ℕ) (p : String)
    (hs2 : 2 ≤ l.size)
    (hlen : l.table.length = l.size * l.size * l.size)
    (hcom : ∀ c ∈ l.comments, strTrim c = c) :
    read_LUT_SonySPI3D p (sonyWriteBody l d)
      = .ok ⟨l.size, l.table.map (fmtV3 d), path_to_title p, defaultDomain3,
          l.comments⟩ := by
  have hglen : (gridEnum l.size).length = l.table.length := by
    rw [gridEnum_length, hlen]
  set pairs := (gridEnum l.size).zip l.table with hpairs
  set rows := pairs.map (fun p => (p.1, fmtV3 d p.2)) with hrows
  have hrowsfst : rows.map Prod.fst = gridEnum l.size := by
    rw [hrows, List.map_map]
    have : (Prod.fst ∘ fun p : I3 × V3 => (p.1, fmtV3 d p.2)) = Prod.fst := rfl
    rw [this, hpairs, List.map_fst_zip _ _ (le_of_eq hglen)]
  have hrowsne : rows ≠ [] := by
    have hlp : 0 < rows.length := by
      rw [hrows, List.length_map, hpairs, List.length_zip, hglen, min_self, hlen]
      have : 0 < l.size := by omega
      positivity
    exact List.ne_nil_of_length_pos hlp
  have hsorted : List.insertionSort rowLE rows = rows :=
    insertionSort_of_pairwise (rows_pairwise_of_fst
      (by rw [hrowsfst]; exact gridEnum_pairwise_le _))
  have hsnd : rows.map Prod.snd = l.table.map (fmtV3 d) := by
    rw [hrows, List.map_map]
    have : (Prod.snd ∘ fun p : I3 × V3 => (p.1, fmtV3 d p.2))
        = fun p : I3 × V3 => fmtV3 d p.2 := rfl
    rw [this]
    have h2 : (fun p : I3 × V3 => fmtV3 d p.2) = (fmtV3 d) ∘ Prod.snd := rfl
    rw [h2, ← List.map_map, hpairs, List.map_snd_zip _ _ (le_of_eq hglen.symm)]
  have hcm : l.comments.map strTrim = l.comments := by
    have := List.map_congr_left (f := strTrim) (g := id) (fun c hc => hcom c hc)
    rw [this, List.map_id]
  unfold read_LUT_SonySPI3D
  rw [sonyParse_writeBody l d hs2]
  simp only [hcm]
  rw [if_neg hrowsne, hsorted]
  rw [show ((l.size : ℤ)).toNat = l.size from Int.toNat_natCast l.size]
  rw [hrowsfst, canonical3DIndexes_eq_gridEnum _ hs2, if_pos rfl, hsnd]

/-- C1, amended: for every `LUT3D` with the implicit default domain
`[[0, 0, 0], [1, 1, 1]]` and size in `[2, 256]`, writing with
`write_LUT_SonySPI3D` at `d` decimals and reading back with
`read_LUT_SonySPI3D` succeeds and yields a table equal to the original
within the decimal precision (half an ulp at `d` decimals, componentwise)
and exactly the original comments in order — provided every comment is
free of leading and trailing whitespace (the reader strips each comment
line, so a comment with surrounding whitespace comes back stripped; see
the counterexample). -/
theorem C1_sony_spi3d_roundtrip (l : LUT3D) (d : ℕ) (p : String)
    (hdom : l.domain = defaultDomain3)
    (hs2 : 2 ≤ l.size) (hs256 : l.size ≤ 256)
    (hlen : l.table.length = l.size * l.size * l.size)
    (hcom : ∀ c ∈ l.comments, strTrim c = c) :
    ∃ lr : LUT3D,
      (write_LUT_SonySPI3D (.node (.threeD l)) d).2 = .ok (sonyWriteBody l d)
      ∧ read_LUT_SonySPI3D p (sonyWriteBody l d) = .ok lr
      ∧ lr.comments = l.comments
      ∧ lr.size = l.size
      ∧ lr.table.length = l.table.length
      ∧ ∀ m : ℕ,
          |(lr.table.getD m (0, 0, 0)).1 - (l.table.getD m (0, 0, 0)).1|
              ≤ 1 / (2 * (10 : ℚ) ^ d)
          ∧ |(lr.table.getD m (0, 0, 0)).2.1 - (l.table.getD m (0, 0, 0)).2.1|
              ≤ 1 / (2 * (10 : ℚ) ^ d)
          ∧ |(lr.table.getD m (0, 0, 0)).2.2 - (l.table.getD m (0, 0, 0)).2.2|
              ≤ 1 / (2 * (10 : ℚ) ^ d) := by
  refine ⟨⟨l.size, l.table.map (fmtV3 d), path_to_title p, defaultDomain3,
    l.comments⟩, ?_, ?_, rfl, rfl, by simp, ?_⟩
  · rw [sony_write_3D_ok l d hdom]
  · exact read_sonyWriteBody l d p hs2 hlen hcom
  · intro m
    exact getD_map_fmtV3_close d l.table m

/-- Concrete input refuting C1 as stated: a valid `LUT3D` (default domain,
size 2) whose single comment carries a trailing space. -/
def lutC1 : LUT3D :=
  ⟨2, [(0, 0, 0), (0, 0, 0), (0, 0, 0), (0, 0, 0), (0, 0, 0), (0, 0, 0),
    (0, 0, 0), (0, 0, 0)], "My LUT", defaultDomain3, ["a "]⟩

/-- C1, counterexample: writing `lutC1` (default domain, size 2, comment
`"a "`) with `write_LUT_SonySPI3D` and reading the file back yields the
comment `"a"` — the reader strips each comment line, so the comments are
not preserved verbatim for every `LUT3D`. -/
theorem C1_counterexample :
    lutC1.domain = defaultDomain3 ∧ 2 ≤ lutC1.size ∧ lutC1.size ≤ 256
    ∧ lutC1.table.length = lutC1.size * lutC1.size * lutC1.size
    ∧ (write_LUT_SonySPI3D (.node (.threeD lutC1)) 7).2 = .ok (sonyWriteBody lutC1 7)
    ∧ read_LUT_SonySPI3D "path" (sonyWriteBody lutC1 7)
        = .ok ⟨2, [(0, 0, 0), (0, 0, 0), (0, 0, 0), (0, 0, 0), (0, 0, 0),
            (0, 0, 0), (0, 0, 0), (0, 0, 0)], "path", defaultDomain3, ["a"]⟩
    ∧ ["a"] ≠ lutC1.comments := by
  refine ⟨by decide!, by decide!, by decide!, by decide!, by decide!, by decide!, by decide!⟩

/-- Concrete witness input for the amended C1. -/
def lutW : LUT3D :=
  ⟨2, [((1 : ℚ)/3, 0, 1), (0, 0, 0), (0, 0, 0), (0, 0, 0), (0, 0, 0),
    (0, 0, 0), (0, 0, 0), (1, 1, 1)], "W", defaultDomain3, ["ok"]⟩

/-- Witness for C1: the amended round-trip theorem applied at `lutW` with
1 decimal, every hypothesis discharged by evaluation. -/
theorem C1_witness :
    lutW.domain = defaultDomain3 ∧ 2 ≤ lutW.size ∧ lutW.size ≤ 256
    ∧ lutW.table.length = lutW.size * lutW.size * lutW.size
    ∧ (∀ c ∈ lutW.comments, strTrim c = c)
    ∧ ∃ lr : LUT3D,
        (write_LUT_SonySPI3D (.node (.threeD lutW)) 1).2 = .ok (sonyWriteBody lutW 1)
        ∧ read_LUT_SonySPI3D "p" (sonyWriteBody lutW 1) = .ok lr
        ∧ lr.comments = lutW.comments
        ∧ lr.size = lutW.size
        ∧ lr.table.length = lutW.table.length
        ∧ ∀ m : ℕ,
            |(lr.table.getD m (0, 0, 0)).1 - (lutW.table.getD m (0, 0, 0)).1|
                ≤ 1 / (2 * (10 : ℚ) ^ (1 : ℕ))
            ∧ |(lr.table.getD m (0, 0, 0)).2.1 - (lutW.table.getD m (0, 0, 0)).2.1|
                ≤ 1 / (2 * (10 : ℚ) ^ (1 : ℕ))
            ∧ |(lr.table.getD m (0, 0, 0)).2.2 - (lutW.table.getD m (0, 0, 0)).2.2|
                ≤ 1 / (2 * (10 : ℚ) ^ (1 : ℕ)) :=
  ⟨by decide!, by decide!, by decide!, by decide!, by decide!,
    C1_sony_spi3d_roundtrip lutW 1 "p" (by decide!) (by decide!) (by decide!)
      (by decide!) (by decide!)⟩

theorem sonyStep_other (st : SonyState) (ts : List Token)
    (h3 : ts.length ≠ 3) (h6 : ts.length ≠ 6) :
    sonyStep st (.toks ts) = .ok st := by
  unfold sonyStep
  match ts with
  | [] => rfl
  | [a] => rfl
  | [a, b] => rfl
  | [a, b, c] => simp at h3
  | [a, b, c, d] => rfl
  | [a, b, c, d, e] => rfl
  | [a, b, c, d, e, f] => simp at h6
  | a :: b :: c :: d :: e :: f :: g :: rest => rfl

theorem sonyStep_sizeLine_bad (st : SonyState) (a b c : Token)
    (h : ¬(a = b ∧ a = c)) :
    sonyStep st (.toks [a, b, c]) = .error (.assertionError nonUniformMsg) := by
  have hstep : sonyStep st (.toks [a, b, c])
      = if a = b ∧ a = c then
          (match a.toZ with
            | .ok s => .ok { st with size := s }
            | .error e => .error e)
        else .error (.assertionError nonUniformMsg) := rfl
  rw [hstep, if_neg h]

/-- A line the SPI3D reader passes over without touching the parse state
that matters here: a comment, or a token line that is neither a size line
nor a data line. -/
def sonyBenign (l : FLine) : Prop :=
  (∃ s, l = .comment s) ∨ ∃ ts, l = .toks ts ∧ ts.length ≠ 3 ∧ ts.length ≠ 6

theorem sonyParse_benign_ok (pre : LUTFile)
    (hpre : ∀ l ∈ pre, sonyBenign l) :
    ∀ st : SonyState, ∃ st', List.foldlM sonyStep st pre = .ok st' := by
  induction pre with
  | nil => exact fun st => ⟨st, rfl⟩
  | cons l pre ih =>
    intro st
    have hl := hpre l (List.mem_cons_self l pre)
    have hrest : ∀ l0 ∈ pre, sonyBenign l0 :=
      fun l0 hl0 => hpre l0 (List.mem_cons_of_mem l hl0)
    rcases hl with ⟨s, rfl⟩ | ⟨ts, rfl, h3, h6⟩
    · rw [List.foldlM_cons, sonyStep_comment, exceptBind_ok]
      exact ih hrest _
    · rw [List.foldlM_cons, sonyStep_other st ts h3 h6, exceptBind_ok]
      exact ih hrest st

/-- C6: an SPI3D file whose size line (the first 3-token line — everything
before it being comments or other-arity lines such as the `SPILUT 1.0` and
`3 3` headers) declares a non-uniform per-axis size fails the
`Non-uniform "LUT" shape is unsupported!` validation, and no table is
produced. -/
theorem C6_sony_nonuniform_size_rejected (pre post : LUTFile) (a b c : Token)
    (p : String)
    (hpre : ∀ l ∈ pre, sonyBenign l)
    (hne : ¬(a = b ∧ a = c)) :
    read_LUT_SonySPI3D p (pre ++ .toks [a, b, c] :: post)
      = .error (.assertionError nonUniformMsg) := by
  obtain ⟨st', hst'⟩ := sonyParse_benign_ok pre hpre sonyInit
  unfold read_LUT_SonySPI3D sonyParse
  rw [List.foldlM_append, hst', exceptBind_ok, List.foldlM_cons,
    sonyStep_sizeLine_bad st' a b c hne, exceptBind_error]

/-- Witness for C6: the file `SPILUT 1.0 / 3 3 / 3 4 5` is rejected with
the non-uniform shape message. -/
theorem C6_witness :
    read_LUT_SonySPI3D "p"
        [.toks [.str "SPILUT", .str "1.0"], .toks [.num 3, .num 3],
          .toks [.num 3, .num 4, .num 5]]
      = .error (.assertionError nonUniformMsg) :=
  C6_sony_nonuniform_size_rejected
    [.toks [.str "SPILUT", .str "1.0"], .toks [.num 3, .num 3]] []
    (.num 3) (.num 4) (.num 5) "p"
    (by
      intro l hl
      simp only [List.mem_cons, List.not_mem_nil, or_false] at hl
      rcases hl with rfl | rfl
      · exact Or.inr ⟨_, rfl, by decide, by decide⟩
      · exact Or.inr ⟨_, rfl, by decide, by decide⟩)
    (by decide!)

theorem sonyWriteChecked_threeD (l : LUT3D) (d : ℕ) :
    sonyWriteChecked (.threeD l) d
      = if (LUTNode.threeD l).is_domain_explicit then
          .error (.assertionError domImplicitMsg)
        else if l.domain = defaultDomain3 then .ok (sonyWriteBody l d)
        else .error (.assertionError domDefaultMsg) := by
  unfold sonyWriteChecked
  by_cases h : (LUTNode.threeD l).is_domain_explicit
  · simp only [if_pos h]
  · simp only [if_neg h]

theorem sonyWriteChecked_oneD (l : LUT1D) (d : ℕ) :
    sonyWriteChecked (.oneD l) d
      = if (LUTNode.oneD l).is_domain_explicit then
          .error (.assertionError domImplicitMsg)
        else .error (.assertionError must3DMsg) := by
  unfold sonyWriteChecked
  by_cases h : (LUTNode.oneD l).is_domain_explicit
  · simp only [if_pos h]
  · simp only [if_neg h]

theorem sonyWriteChecked_threeX1D (l : LUT3x1D) (d : ℕ) :
    sonyWriteChecked (.threeX1D l) d
      = if (LUTNode.threeX1D l).is_domain_explicit then
          .error (.assertionError domImplicitMsg)
        else .error (.assertionError must3DMsg) := by
  unfold sonyWriteChecked
  by_cases h : (LUTNode.threeX1D l).is_domain_explicit
  · simp only [if_pos h]
  · simp only [if_neg h]

theorem sonyWriteChecked_ok_iff (n : LUTNode) (d : ℕ) :
    (∃ f, sonyWriteChecked n d = .ok f)
      ↔ ∃ l : LUT3D, n = .threeD l ∧ l.domain = defaultDomain3 := by
  constructor
  · rintro ⟨f, hf⟩
    match n with
    | .oneD l =>
      rw [sonyWriteChecked_oneD] at hf
      by_cases hexp : (LUTNode.oneD l).is_domain_explicit
      · rw [if_pos hexp] at hf; cases hf
      · rw [if_neg hexp] at hf; cases hf
    | .threeX1D l =>
      rw [sonyWriteChecked_threeX1D] at hf
      by_cases hexp : (LUTNode.threeX1D l).is_domain_explicit
      · rw [if_pos hexp] at hf; cases hf
      · rw [if_neg hexp] at hf; cases hf
    | .threeD l =>
      rw [sonyWriteChecked_threeD] at hf
      by_cases hexp : (LUTNode.threeD l).is_domain_explicit
      · rw [if_pos hexp] at hf; cases hf
      · rw [if_neg hexp] at hf
        by_cases hdom : l.domain = defaultDomain3
        · exact ⟨l, rfl, hdom⟩
        · rw [if_neg hdom] at hf; cases hf
  · rintro ⟨l, rfl, hdom⟩
    refine ⟨sonyWriteBody l d, ?_⟩
    rw [sonyWriteChecked_threeD]
    have hexp : (LUTNode.threeD l).is_domain_explicit = false := by
      simp [LUTNode.is_domain_explicit, hdom, defaultDomain3]
    rw [hexp]
    simp [hdom]

/-- C9: handed a `LUTSequence`, `write_LUT_SonySPI3D` issues exactly one
non-fatal advisory notification, uses only the first element of the
sequence (the outcome equals writing that element directly), and succeeds
exactly when that element is a `LUT3D` whose (implicit) domain is
`[[0, 0, 0], [1, 1, 1]]` — otherwise it fails with an `attest` validation
error. -/
theorem C9_sony_write_sequence_advisory (e : LUTNode) (rest : List LUTNode)
    (d : ℕ) :
    (write_LUT_SonySPI3D (.seq (e :: rest)) d).1 = [sonySeqAdvisory]
    ∧ (write_LUT_SonySPI3D (.seq (e :: rest)) d).2
        = (write_LUT_SonySPI3D (.node e) d).2
    ∧ ((∃ f, (write_LUT_SonySPI3D (.seq (e :: rest)) d).2 = .ok f)
        ↔ ∃ l : LUT3D, e = .threeD l ∧ l.domain = defaultDomain3)
    ∧ (¬(∃ l : LUT3D, e = .threeD l ∧ l.domain = defaultDomain3)
        → ∃ msg, (write_LUT_SonySPI3D (.seq (e :: rest)) d).2
            = .error (.assertionError msg)) := by
  refine ⟨rfl, rfl, ?_, ?_⟩
  · exact sonyWriteChecked_ok_iff e d
  · intro hno
    show ∃ msg, sonyWriteChecked e d = .error (.assertionError msg)
    match e with
    | .oneD l =>
      rw [sonyWriteChecked_oneD]
      by_cases hexp : (LUTNode.oneD l).is_domain_explicit
      · rw [if_pos hexp]; exact ⟨_, rfl⟩
      · rw [if_neg hexp]; exact ⟨_, rfl⟩
    | .threeX1D l =>
      rw [sonyWriteChecked_threeX1D]
      by_cases hexp : (LUTNode.threeX1D l).is_domain_explicit
      · rw [if_pos hexp]; exact ⟨_, rfl⟩
      · rw [if_neg hexp]; exact ⟨_, rfl⟩
    | .threeD l =>
      rw [sonyWriteChecked_threeD]
      have hdom : ¬(l.domain = defaultDomain3) := fun hd => hno ⟨l, rfl, hd⟩
      by_cases hexp : (LUTNode.threeD l).is_domain_explicit
      · rw [if_pos hexp]; exact ⟨_, rfl⟩
      · rw [if_neg hexp, if_neg hdom]; exact ⟨_, rfl⟩

/-- Witness for C9: a two-element sequence headed by a valid `LUT3D`
produces the advisory and the same file as writing the head directly. -/
theorem C9_witness :
    (write_LUT_SonySPI3D (.seq [.threeD lutW, .threeD lutW]) 2).1 = [sonySeqAdvisory]
    ∧ (write_LUT_SonySPI3D (.seq [.threeD lutW, .threeD lutW]) 2).2
        = (write_LUT_SonySPI3D (.node (.threeD lutW)) 2).2
    ∧ ((∃ f, (write_LUT_SonySPI3D (.seq [.threeD lutW, .threeD lutW]) 2).2 = .ok f)
        ↔ ∃ l : LUT3D, LUTNode.threeD lutW = .threeD l ∧ l.domain = defaultDomain3)
    ∧ (¬(∃ l : LUT3D, LUTNode.threeD lutW = .threeD l ∧ l.domain = defaultDomain3)
        → ∃ msg, (write_LUT_SonySPI3D (.seq [.threeD lutW, .threeD lutW]) 2).2
            = .error (.assertionError msg)) :=
  C9_sony_write_sequence_advisory (.threeD lutW) [.threeD lutW] 2

theorem read_sony_eq_of_parse (p : String) (file : LUTFile) (st : SonyState)
    (h : sonyParse file = .ok st) :
    read_LUT_SonySPI3D p file
      = if st.rows = [] then .error (.indexError "too many indices for array")
        else if (List.insertionSort rowLE st.rows).map Prod.fst
            = canonical3DIndexes st.size.toNat then
          .ok ⟨st.size.toNat, (List.insertionSort rowLE st.rows).map Prod.snd,
            path_to_title p, defaultDomain3, st.comments⟩
        else .error (.assertionError idxMismatchMsg) := by
  unfold read_LUT_SonySPI3D
  rw [h]

/-- C5: `read_LUT_SonySPI3D` collects the 6-token index/value rows, sorts
them by index lexicographically with the first axis as primary key (the
sort is a permutation of the collected rows, sorted under `rowLE`), then
requires the sorted index sequence to equal the canonical enumeration
`round(linear_table(size) * (size - 1))` reshaped to `(-1, 3)`
(`canonical3DIndexes`); any mismatch fails with the
`Indexes do not match expected "LUT3D" indexes!` validation error before
any table is constructed, and on success the table is built from the
sorted values. -/
theorem C5_sony_read_lexsort_canonical (p : String) (file : LUTFile)
    (st : SonyState) (hparse : sonyParse file = .ok st) :
    (List.insertionSort rowLE st.rows).Perm st.rows
    ∧ List.Sorted rowLE (List.insertionSort rowLE st.rows)
    ∧ (st.rows ≠ [] →
        (List.insertionSort rowLE st.rows).map Prod.fst
            ≠ canonical3DIndexes st.size.toNat →
        read_LUT_SonySPI3D p file = .error (.assertionError idxMismatchMsg))
    ∧ ∀ lr : LUT3D, read_LUT_SonySPI3D p file = .ok lr →
        st.rows ≠ []
        ∧ (List.insertionSort rowLE st.rows).map Prod.fst
            = canonical3DIndexes st.size.toNat
        ∧ lr.table = (List.insertionSort rowLE st.rows).map Prod.snd := by
  refine ⟨List.perm_insertionSort rowLE st.rows,
    List.sorted_insertionSort rowLE st.rows, ?_, ?_⟩
  · intro hne hmis
    rw [read_sony_eq_of_parse p file st hparse, if_neg hne, if_neg hmis]
  · intro lr hok
    rw [read_sony_eq_of_parse p file st hparse] at hok
    by_cases hrows : st.rows = []
    · rw [if_pos hrows] at hok
      cases hok
    · rw [if_neg hrows] at hok
      by_cases hsort : (List.insertionSort rowLE st.rows).map Prod.fst
          = canonical3DIndexes st.size.toNat
      · rw [if_pos hsort] at hok
        cases hok
        exact ⟨hrows, hsort, rfl⟩
      · rw [if_neg hsort] at hok
        cases hok

/-- A concrete unordered SPI3D file: size line `2 2 2` followed by the 8
index/value rows in reverse lexicographic order. -/
def c5File : LUTFile :=
  .toks [.num 2, .num 2, .num 2]
    :: ((gridEnum 2).reverse.map fun idx =>
          sonyDataLine idx ((idx.1 : ℚ), ((idx.2.1 : ℚ)), ((idx.2.2 : ℚ))))

/-- The parse state `c5File` produces. -/
def c5St : SonyState :=
  ⟨2, (gridEnum 2).reverse.map fun idx =>
    (idx, ((idx.1 : ℚ), ((idx.2.1 : ℚ)), ((idx.2.2 : ℚ)))), []⟩

/-- Witness for C5: the sort/validation characterisation applied to the
concrete unordered file `c5File`. -/
theorem C5_witness :
    (List.insertionSort rowLE c5St.rows).Perm c5St.rows
    ∧ List.Sorted rowLE (List.insertionSort rowLE c5St.rows)
    ∧ (c5St.rows ≠ [] →
        (List.insertionSort rowLE c5St.rows).map Prod.fst
            ≠ canonical3DIndexes c5St.size.toNat →
        read_LUT_SonySPI3D "p" c5File = .error (.assertionError idxMismatchMsg))
    ∧ ∀ lr : LUT3D, read_LUT_SonySPI3D "p" c5File = .ok lr →
        c5St.rows ≠ []
        ∧ (List.insertionSort rowLE c5St.rows).map Prod.fst
            = canonical3DIndexes c5St.size.toNat
        ∧ lr.table = (List.insertionSort rowLE c5St.rows).map Prod.snd :=
  C5_sony_read_lexsort_canonical "p" c5File c5St (by decide!)

theorem sub_sq_bound (s j k : ℕ) (hj : j < s) (hk : k < s) : j * s + k < s * s := by
  have h1 : (j + 1) * s ≤ s * s := Nat.mul_le_mul_right s (Nat.succ_le_of_lt hj)
  have h2 : j * s + s = (j + 1) * s := by ring
  omega

theorem cube_bound (s i j k : ℕ) (hi : i < s) (hj : j < s) (hk : k < s) :
    i * (s * s) + j * s + k < s * s * s := by
  have h1 := sub_sq_bound s j k hj hk
  have h2 : (i + 1) * (s * s) ≤ s * (s * s) :=
    Nat.mul_le_mul_right (s * s) (Nat.succ_le_of_lt hi)
  have h3 : (i + 1) * (s * s) = i * (s * s) + s * s := by ring
  have h4 : s * (s * s) = s * s * s := by ring
  omega

theorem cube_bound_f (s i j k : ℕ) (hi : i < s) (hj : j < s) (hk : k < s) :
    i + j * s + k * (s * s) < s * s * s := by
  have h1 := sub_sq_bound s j i hj hi
  have h2 : (k + 1) * (s * s) ≤ s * (s * s) :=
    Nat.mul_le_mul_right (s * s) (Nat.succ_le_of_lt hk)
  have h3 : (k + 1) * (s * s) = k * (s * s) + s * s := by ring
  have h4 : s * (s * s) = s * s * s := by ring
  omega

theorem decodeC (s i j k : ℕ) (hi : i < s) (hj : j < s) (hk : k < s) :
    (i * (s * s) + j * s + k) / (s * s) = i
    ∧ ((i * (s * s) + j * s + k) / s) % s = j
    ∧ (i * (s * s) + j * s + k) % s = k := by
  have hs : 0 < s := by omega
  have hss : 0 < s * s := Nat.mul_pos hs hs
  have hjk := sub_sq_bound s j k hj hk
  refine ⟨?_, ?_, ?_⟩
  · rw [show i * (s * s) + j * s + k = (s * s) * i + (j * s + k) from by ring,
      Nat.mul_add_div hss, Nat.div_eq_of_lt hjk]
    omega
  · rw [show i * (s * s) + j * s + k = s * (i * s + j) + k from by ring,
      Nat.mul_add_div hs, Nat.div_eq_of_lt hk, Nat.add_zero,
      show i * s + j = s * i + j from by ring, Nat.mul_add_mod,
      Nat.mod_eq_of_lt hj]
  · rw [show i * (s * s) + j * s + k = s * (i * s + j) + k from by ring,
      Nat.mul_add_mod, Nat.mod_eq_of_lt hk]

theorem decodeF (s i j k : ℕ) (hi : i < s) (hj : j < s) (hk : k < s) :
    (i + j * s + k * (s * s)) % s = i
    ∧ ((i + j * s + k * (s * s)) / s) % s = j
    ∧ (i + j * s + k * (s * s)) / (s * s) = k := by
  have hs : 0 < s := by omega
  have hss : 0 < s * s := Nat.mul_pos hs hs
  have hji := sub_sq_bound s j i hj hi
  refine ⟨?_, ?_, ?_⟩
  · rw [show i + j * s + k * (s * s) = s * (j + k * s) + i from by ring,
      Nat.mul_add_mod, Nat.mod_eq_of_lt hi]
  · rw [show i + j * s + k * (s * s) = s * (j + k * s) + i from by ring,
      Nat.mul_add_div hs, Nat.div_eq_of_lt hi, Nat.add_zero,
      show j + k * s = s * k + j from by ring, Nat.mul_add_mod,
      Nat.mod_eq_of_lt hj]
  · rw [show i + j * s + k * (s * s) = (s * s) * k + (j * s + i) from by ring,
      Nat.mul_add_div hss, Nat.div_eq_of_lt hji]
    omega

theorem reshapeF_getD (s : ℕ) (rows : List V3) {i j k : ℕ}
    (hi : i < s) (hj : j < s) (hk : k < s) :
    (reshapeF s rows).getD (i * (s * s) + j * s + k) (0, 0, 0)
      = rows.getD (i + j * s + k * (s * s)) (0, 0, 0) := by
  obtain ⟨d1, d2, d3⟩ := decodeC s i j k hi hj hk
  have hm := cube_bound s i j k hi hj hk
  unfold reshapeF
  rw [List.getD_eq_getElem?_getD, List.getElem?_map, List.getElem?_range hm]
  simp only [Option.map_some', Option.getD_some]
  rw [d1, d2, d3]

theorem flattenF_getD (s : ℕ) (tableC : List V3) {i j k : ℕ}
    (hi : i < s) (hj : j < s) (hk : k < s) :
    (flattenF s tableC).getD (i + j * s + k * (s * s)) (0, 0, 0)
      = tableC.getD (i * (s * s) + j * s + k) (0, 0, 0) := by
  obtain ⟨d1, d2, d3⟩ := decodeF s i j k hi hj hk
  have hm := cube_bound_f s i j k hi hj hk
  unfold flattenF
  rw [List.getD_eq_getElem?_getD, List.getElem?_map, List.getElem?_range hm]
  simp only [Option.map_some', Option.getD_some]
  rw [d1, d2, d3]

theorem read_resolve_eq_of_parse (p : String) (file : LUTFile) (st : RState)
    (h : rParse p file = .ok st) :
    read_LUT_ResolveCube p file = resolveBuild st := by
  unfold read_LUT_ResolveCube
  rw [h]

theorem resolveBuild_eq_of_table (st : RState) (tbl : List (List ℚ))
    (ht : asFloatTable st.data = .ok tbl) :
    resolveBuild st
      = if st.has3x1D && st.has3D then resolveComposite st tbl
        else if st.has3x1D then resolveShaperOnly st tbl
        else if st.has3D then resolveCubeOnly st tbl
        else .error (.unboundLocalError "local variable referenced before assignment") := by
  unfold resolveBuild
  rw [ht]

theorem resolveCubeOnly_eq (st : RState) (tbl : List (List ℚ)) (v : List V3)
    (hv : toV3Rows tbl = .ok v) :
    resolveCubeOnly st tbl
      = if v.length = st.size3D.toNat * st.size3D.toNat * st.size3D.toNat then
          .ok (.node (.threeD ⟨st.size3D.toNat, reshapeF st.size3D.toNat v,
            st.title, st.domain3D.getD defaultDomain3, st.comments⟩))
        else .error (.valueError "cannot reshape array") := by
  unfold resolveCubeOnly
  rw [hv]

theorem resolveShaperOnly_eq (st : RState) (tbl : List (List ℚ)) (v : List V3)
    (hv : toV3Rows tbl = .ok v) :
    resolveShaperOnly st tbl
      = .ok (.node (.threeX1D ⟨v, st.title, st.domain3x1D.getD defaultDomain3,
          st.comments⟩)) := by
  unfold resolveShaperOnly
  rw [hv]

theorem resolveComposite_eq (st : RState) (tbl : List (List ℚ)) (v : List V3)
    (hv : toV3Rows tbl = .ok v) :
    resolveComposite st tbl
      = if (v.drop st.size3x1D.toNat).length
            = st.size3D.toNat * st.size3D.toNat * st.size3D.toNat then
          .ok (.seq [
            .threeX1D ⟨v.take st.size3x1D.toNat, st.title ++ " - Shaper",
              st.domain3x1D.getD defaultDomain3, []⟩,
            .threeD ⟨st.size3D.toNat,
              reshapeF st.size3D.toNat (v.drop st.size3x1D.toNat),
              st.title ++ " - Cube", st.domain3D.getD defaultDomain3,
              st.comments⟩])
        else .error (.valueError "cannot reshape array") := by
  unfold resolveComposite
  rw [hv]

theorem read_resolve_cubeOnly (p : String) (file : LUTFile) (st : RState)
    (tbl : List (List ℚ)) (v : List V3)
    (hp : rParse p file = .ok st) (h1 : st.has3x1D = false) (h3 : st.has3D = true)
    (ht : asFloatTable st.data = .ok tbl) (hv : toV3Rows tbl = .ok v)
    (hlen : v.length = st.size3D.toNat * st.size3D.toNat * st.size3D.toNat) :
    read_LUT_ResolveCube p file
      = .ok (.node (.threeD ⟨st.size3D.toNat, reshapeF st.size3D.toNat v,
          st.title, st.domain3D.getD defaultDomain3, st.comments⟩)) := by
  rw [read_resolve_eq_of_parse p file st hp, resolveBuild_eq_of_table st tbl ht,
    h1, h3]
  simp only [Bool.false_and, Bool.false_eq_true, if_false, if_true]
  rw [resolveCubeOnly_eq st tbl v hv, if_pos hlen]

theorem write_resolve_eq_of_assemble (LUT : LUTValue) (d : ℕ) (pr : RPair)
    (h : resolveAssemble LUT = .ok pr) :
    write_LUT_ResolveCube LUT d
      = if pr.L0.domain.length ≠ 2 then
          .error (.assertionError "\"LUT\" domain must be implicit!")
        else if pr.L1.domain.length ≠ 2 then
          .error (.assertionError "\"LUT\" domain must be implicit!")
        else if ¬(uniqueCount pr.L0.domain = 2 ∧ uniqueCount pr.L1.domain = 2) then
          .error (.assertionError "\"LUT\" domain must be 1D!")
        else if pr.has3x1D ∧ ¬(2 ≤ pr.L0.size ∧ pr.L0.size ≤ 65536) then
          .error (.assertionError "Shaper size must be in domain [2, 65536]!")
        else if pr.has3D ∧ ¬(2 ≤ pr.L1.size ∧ pr.L1.size ≤ 256) then
          .error (.assertionError "Cube size must be in domain [2, 256]!")
        else .ok (resolveWriteBody pr d) := by
  unfold write_LUT_ResolveCube
  rw [h]

theorem resolve_write_3D_ok (l : LUT3D) (d : ℕ)
    (hdom : l.domain = defaultDomain3) (hs2 : 2 ≤ l.size) (hs256 : l.size ≤ 256) :
    write_LUT_ResolveCube (.node (.threeD l)) d
      = .ok ([.toks [.str "TITLE", .str ("\"" ++ l.name ++ "\"")]]
          ++ l.comments.map .comment
          ++ [.toks [.str "LUT_3D_SIZE", .num (l.size : ℚ)]]
          ++ (flattenF l.size l.table).map (resolveDataLine d)) := by
  have hasm : resolveAssemble (.node (.threeD l))
      = .ok ⟨placeholder3x1D, l, false, true, l.name⟩ := rfl
  rw [write_resolve_eq_of_assemble _ d _ hasm]
  rw [if_neg (show ¬(placeholder3x1D.domain.length ≠ 2) from by decide)]
  rw [if_neg (show ¬(l.domain.length ≠ 2) from by rw [hdom]; decide)]
  rw [if_neg (not_not_intro
    ⟨show uniqueCount placeholder3x1D.domain = 2 from by decide,
      show uniqueCount l.domain = 2 from by rw [hdom]; decide⟩)]
  rw [if_neg (show ¬((false : Bool) = true ∧ _) from fun h => by
    simpa using h.1)]
  rw [if_neg (fun h => h.2 ⟨hs2, hs256⟩)]
  simp [resolveWriteBody, placeholder3x1D, hdom]

/-- C2: Resolve `.cube` 3D tables use the fastest-first (Fortran) axis
convention in both directions.  Reading a cube-only file reshapes the flat
data rows into `(n, n, n, 3)` with the first grid axis changing fastest on
disk: the parsed triple at grid index `(i, j, k)` is data row
`i + j·n + k·n²`.  Writing flattens the in-memory table in the same order:
file data row `i + j·n + k·n²` is the table triple at grid index
`(i, j, k)`.  In particular, for `LUT_3D_SIZE 4` the parsed value at grid
index `(0, 0, 1)` is disk data row 16 (see the witness). -/
theorem C2_resolve_cube_column_major :
    (∀ (p : String) (file : LUTFile) (st : RState) (tbl : List (List ℚ))
        (v : List V3),
      rParse p file = .ok st → st.has3x1D = false → st.has3D = true →
      asFloatTable st.data = .ok tbl → toV3Rows tbl = .ok v →
      v.length = st.size3D.toNat * st.size3D.toNat * st.size3D.toNat →
      ∃ lr : LUT3D,
        read_LUT_ResolveCube p file = .ok (.node (.threeD lr))
        ∧ lr.size = st.size3D.toNat
        ∧ ∀ i j k : ℕ, i < lr.size → j < lr.size → k < lr.size →
            lr.table.getD (i * (lr.size * lr.size) + j * lr.size + k) (0, 0, 0)
              = v.getD (i + j * lr.size + k * (lr.size * lr.size)) (0, 0, 0))
    ∧ (∀ (l : LUT3D) (d : ℕ),
        l.domain = defaultDomain3 → 2 ≤ l.size → l.size ≤ 256 →
        write_LUT_ResolveCube (.node (.threeD l)) d
          = .ok ([.toks [.str "TITLE", .str ("\"" ++ l.name ++ "\"")]]
              ++ l.comments.map .comment
              ++ [.toks [.str "LUT_3D_SIZE", .num (l.size : ℚ)]]
              ++ (flattenF l.size l.table).map (resolveDataLine d))
        ∧ ∀ i j k : ℕ, i < l.size → j < l.size → k < l.size →
            (flattenF l.size l.table).getD
                (i + j * l.size + k * (l.size * l.size)) (0, 0, 0)
              = l.table.getD (i * (l.size * l.size) + j * l.size + k)
                  (0, 0, 0)) := by
  constructor
  · intro p file st tbl v hp h1 h3 ht hv hlen
    refine ⟨⟨st.size3D.toNat, reshapeF st.size3D.toNat v, st.title,
      st.domain3D.getD defaultDomain3, st.comments⟩,
      read_resolve_cubeOnly p file st tbl v hp h1 h3 ht hv hlen, rfl, ?_⟩
    intro i j k hi hj hk
    exact reshapeF_getD st.size3D.toNat v hi hj hk
  · intro l d hdom hs2 hs256
    refine ⟨resolve_write_3D_ok l d hdom hs2 hs256, ?_⟩
    intro i j k hi hj hk
    exact flattenF_getD l.size l.table hi hj hk

/-- The index-order invariant file of the spec: `LUT_3D_SIZE 4` followed by
64 data rows, row `m` carrying the value `(m, m, m)`. -/
def c2File : LUTFile :=
  .toks [.str "LUT_3D_SIZE", .num 4]
    :: ((List.range 64).map fun (m : ℕ) =>
          .toks [.num ((m : ℚ)), .num ((m : ℚ)), .num ((m : ℚ))])

/-- The parse state `c2File` produces. -/
def c2St : RState :=
  ⟨"p", none, none, 2, 4,
    (List.range 64).map fun (m : ℕ) =>
      [.num ((m : ℚ)), .num ((m : ℚ)), .num ((m : ℚ))],
    [], false, true⟩

/-- The float rows of `c2File`. -/
def c2Rows : List V3 := (List.range 64).map fun (m : ℕ) => ((m : ℚ), (m : ℚ), (m : ℚ))

/-- Witness for C2 at `LUT_3D_SIZE 4`: the read half of the theorem applied
to `c2File`; grid index `(0, 0, 1)` of the parsed table is disk data row
16 = `0 + 0·4 + 1·16` (value `(16, 16, 16)`), not row 1. -/
theorem C2_witness :
    ∃ lr : LUT3D,
      read_LUT_ResolveCube "p" c2File = .ok (.node (.threeD lr))
      ∧ lr.size = c2St.size3D.toNat
      ∧ ∀ i j k : ℕ, i < lr.size → j < lr.size → k < lr.size →
          lr.table.getD (i * (lr.size * lr.size) + j * lr.size + k) (0, 0, 0)
            = c2Rows.getD (i + j * lr.size + k * (lr.size * lr.size)) (0, 0, 0) :=
  C2_resolve_cube_column_major.1 "p" c2File c2St
    ((List.range 64).map fun (m : ℕ) => [((m : ℚ)), ((m : ℚ)), ((m : ℚ))])
    c2Rows (by decide!) (by decide!) (by decide!) (by decide!) (by decide!)
    (by decide!)

theorem read_resolve_composite (p : String) (file : LUTFile) (st : RState)
    (tbl : List (List ℚ)) (v : List V3)
    (hp : rParse p file = .ok st) (h1 : st.has3x1D = true) (h3 : st.has3D = true)
    (ht : asFloatTable st.data = .ok tbl) (hv : toV3Rows tbl = .ok v)
    (hlen : v.length = st.size3x1D.toNat
      + st.size3D.toNat * st.size3D.toNat * st.size3D.toNat) :
    read_LUT_ResolveCube p file
      = .ok (.seq [
          .threeX1D ⟨v.take st.size3x1D.toNat, st.title ++ " - Shaper",
            st.domain3x1D.getD defaultDomain3, []⟩,
          .threeD ⟨st.size3D.toNat,
            reshapeF st.size3D.toNat (v.drop st.size3x1D.toNat),
            st.title ++ " - Cube", st.domain3D.getD defaultDomain3,
            st.comments⟩]) := by
  rw [read_resolve_eq_of_parse p file st hp, resolveBuild_eq_of_table st tbl ht,
    h1, h3]
  simp only [Bool.and_self, if_true]
  rw [resolveComposite_eq st tbl v hv]
  rw [if_pos (by rw [List.length_drop, hlen]; omega)]

/-- The comment payloads a single line contributes on read. -/
def lineComment : FLine → List String
  | .comment c => [strTrim c]
  | .toks _ => []

theorem rStep_comment_eq (st : RState) (c : String) :
    rStep st (.comment c) = .ok { st with comments := st.comments ++ [strTrim c] } :=
  rfl

theorem rStep_nil_eq (st : RState) : rStep st (.toks []) = .ok st := rfl

theorem rStep_toks_eq (st : RState) (t0 : Token) (rest : List Token) :
    rStep st (.toks (t0 :: rest))
      = if t0 = .str "TITLE" then .ok { st with title := titleOfTokens rest }
        else if t0 = .str "LUT_1D_INPUT_RANGE" then
          match tokensToQs rest with
          | .ok qs => .ok { st with domain3x1D := some (tstack3 qs) }
          | .error e => .error e
        else if t0 = .str "LUT_3D_INPUT_RANGE" then
          match tokensToQs rest with
          | .ok qs => .ok { st with domain3D := some (tstack3 qs) }
          | .error e => .error e
        else if t0 = .str "LUT_1D_SIZE" then
          match rest with
          | [] => .error (.indexError "list index out of range")
          | t :: _ =>
            match t.toZ with
            | .ok n => .ok { st with has3x1D := true, size3x1D := n }
            | .error e => .error e
        else if t0 = .str "LUT_3D_SIZE" then
          match rest with
          | [] => .error (.indexError "list index out of range")
          | t :: _ =>
            match t.toZ with
            | .ok n => .ok { st with has3D := true, size3D := n }
            | .error e => .error e
        else .ok { st with data := st.data ++ [t0 :: rest] } := rfl

theorem rStep_ok_comments {st0 st1 : RState} {l : FLine}
    (h : rStep st0 l = .ok st1) :
    st1.comments = st0.comments ++ lineComment l := by
  cases l with
  | comment c =>
    rw [rStep_comment_eq] at h
    cases h
    rfl
  | toks ts =>
    show st1.comments = st0.comments ++ []
    rw [List.append_nil]
    cases ts with
    | nil =>
      rw [rStep_nil_eq] at h
      cases h
      rfl
    | cons t0 rest =>
      rw [rStep_toks_eq] at h
      split_ifs at h
      · cases h; rfl
      · cases hq : tokensToQs rest with
        | ok qs => rw [hq] at h; cases h; rfl
        | error e => rw [hq] at h; cases h
      · cases hq : tokensToQs rest with
        | ok qs => rw [hq] at h; cases h; rfl
        | error e => rw [hq] at h; cases h
      · cases rest with
        | nil => cases h
        | cons t rest2 =>
          have h2 : (match t.toZ with
              | .ok n => (.ok { st0 with has3x1D := true, size3x1D := n }
                  : Except PyErr RState)
              | .error e => .error e) = .ok st1 := h
          cases hz : t.toZ with
          | ok n => rw [hz] at h2; cases h2; rfl
          | error e => rw [hz] at h2; cases h2
      · cases rest with
        | nil => cases h
        | cons t rest2 =>
          have h2 : (match t.toZ with
              | .ok n => (.ok { st0 with has3D := true, size3D := n }
                  : Except PyErr RState)
              | .error e => .error e) = .ok st1 := h
          cases hz : t.toZ with
          | ok n => rw [hz] at h2; cases h2; rfl
          | error e => rw [hz] at h2; cases h2
      · cases h; rfl

theorem rfold_comments (file : LUTFile) :
    ∀ st0 st1 : RState, List.foldlM rStep st0 file = .ok st1 →
      st1.comments = st0.comments ++ file.flatMap lineComment := by
  induction file with
  | nil =>
    intro st0 st1 h
    have h' : (.ok st0 : Except PyErr RState) = .ok st1 := h
    cases h'
    simp
  | cons l file ih =>
    intro st0 st1 h
    rw [List.foldlM_cons] at h
    cases hstep : rStep st0 l with
    | error e =>
      rw [hstep, exceptBind_error] at h
      cases h
    | ok stm =>
      rw [hstep, exceptBind_ok] at h
      rw [ih stm st1 h, rStep_ok_comments hstep]
      simp

theorem rParse_comments (p : String) (file : LUTFile) (st : RState)
    (h : rParse p file = .ok st) :
    st.comments = file.flatMap lineComment := by
  have := rfold_comments file (rInit p) st h
  simpa [rInit] using this

theorem rStep_mono_flags {st0 st1 : RState} {l : FLine}
    (h : rStep st0 l = .ok st1) :
    (st0.has3x1D = true → st1.has3x1D = true)
    ∧ (st0.has3D = true → st1.has3D = true) := by
  cases l with
  | comment c =>
    rw [rStep_comment_eq] at h
    cases h
    exact ⟨id, id⟩
  | toks ts =>
    cases ts with
    | nil =>
      rw [rStep_nil_eq] at h
      cases h
      exact ⟨id, id⟩
    | cons t0 rest =>
      rw [rStep_toks_eq] at h
      split_ifs at h
      · cases h; exact ⟨id, id⟩
      · cases hq : tokensToQs rest with
        | ok qs => rw [hq] at h; cases h; exact ⟨id, id⟩
        | error e => rw [hq] at h; cases h
      · cases hq : tokensToQs rest with
        | ok qs => rw [hq] at h; cases h; exact ⟨id, id⟩
        | error e => rw [hq] at h; cases h
      · cases rest with
        | nil => cases h
        | cons t rest2 =>
          have h2 : (match t.toZ with
              | .ok n => (.ok { st0 with has3x1D := true, size3x1D := n }
                  : Except PyErr RState)
              | .error e => .error e) = .ok st1 := h
          cases hz : t.toZ with
          | ok n => rw [hz] at h2; cases h2; exact ⟨fun _ => rfl, id⟩
          | error e => rw [hz] at h2; cases h2
      · cases rest with
        | nil => cases h
        | cons t rest2 =>
          have h2 : (match t.toZ with
              | .ok n => (.ok { st0 with has3D := true, size3D := n }
                  : Except PyErr RState)
              | .error e => .error e) = .ok st1 := h
          cases hz : t.toZ with
          | ok n => rw [hz] at h2; cases h2; exact ⟨id, fun _ => rfl⟩
          | error e => rw [hz] at h2; cases h2
      · cases h; exact ⟨id, id⟩

theorem rfold_mono_flags (file : LUTFile) :
    ∀ st0 st1 : RState, List.foldlM rStep st0 file = .ok st1 →
      (st0.has3x1D = true → st1.has3x1D = true)
      ∧ (st0.has3D = true → st1.has3D = true) := by
  induction file with
  | nil =>
    intro st0 st1 h
    have h' : (.ok st0 : Except PyErr RState) = .ok st1 := h
    cases h'
    exact ⟨id, id⟩
  | cons l file ih =>
    intro st0 st1 h
    rw [List.foldlM_cons] at h
    cases hstep : rStep st0 l with
    | error e =>
      rw [hstep, exceptBind_error] at h
      cases h
    | ok stm =>
      rw [hstep, exceptBind_ok] at h
      have h1 := rStep_mono_flags hstep
      have h2 := ih stm st1 h
      exact ⟨fun hh => h2.1 (h1.1 hh), fun hh => h2.2 (h1.2 hh)⟩

theorem rfold_append_split (l1 l2 : LUTFile) (st0 st2 : RState)
    (h : List.foldlM rStep st0 (l1 ++ l2) = .ok st2) :
    ∃ stm, List.foldlM rStep st0 l1 = .ok stm
      ∧ List.foldlM rStep stm l2 = .ok st2 := by
  rw [List.foldlM_append] at h
  cases hm : List.foldlM rStep st0 l1 with
  | error e =>
    rw [hm, exceptBind_error] at h
    cases h
  | ok stm =>
    rw [hm, exceptBind_ok] at h
    exact ⟨stm, rfl, h⟩

theorem rStep_dir1D {st0 st1 : RState} {rest : List Token}
    (h : rStep st0 (.toks (.str "LUT_1D_SIZE" :: rest)) = .ok st1) :
    st1.has3x1D = true := by
  rw [rStep_toks_eq] at h
  rw [if_neg (by decide), if_neg (by decide), if_neg (by decide),
    if_pos rfl] at h
  cases rest with
  | nil => cases h
  | cons t rest2 =>
    have h2 : (match t.toZ with
        | .ok n => (.ok { st0 with has3x1D := true, size3x1D := n }
            : Except PyErr RState)
        | .error e => .error e) = .ok st1 := h
    cases hz : t.toZ with
    | ok n => rw [hz] at h2; cases h2; rfl
    | error e => rw [hz] at h2; cases h2

theorem rStep_dir3D {st0 st1 : RState} {rest : List Token}
    (h : rStep st0 (.toks (.str "LUT_3D_SIZE" :: rest)) = .ok st1) :
    st1.has3D = true := by
  rw [rStep_toks_eq] at h
  rw [if_neg (by decide), if_neg (by decide), if_neg (by decide),
    if_neg (by decide), if_pos rfl] at h
  cases rest with
  | nil => cases h
  | cons t rest2 =>
    have h2 : (match t.toZ with
        | .ok n => (.ok { st0 with has3D := true, size3D := n }
            : Except PyErr RState)
        | .error e => .error e) = .ok st1 := h
    cases hz : t.toZ with
    | ok n => rw [hz] at h2; cases h2; rfl
    | error e => rw [hz] at h2; cases h2

/-- A file that contains a `LUT_1D_SIZE` directive and parses successfully
has the `has_3x1D` flag set. -/
theorem rParse_has3x1D_of_directive (p : String) (file : LUTFile)
    (st : RState) (rest : List Token)
    (hmem : FLine.toks (.str "LUT_1D_SIZE" :: rest) ∈ file)
    (h : rParse p file = .ok st) : st.has3x1D = true := by
  obtain ⟨s1, s2, rfl⟩ := List.append_of_mem hmem
  obtain ⟨stm, _, hm2⟩ := rfold_append_split s1 _ (rInit p) st h
  rw [List.foldlM_cons] at hm2
  cases hstep : rStep stm (.toks (.str "LUT_1D_SIZE" :: rest)) with
  | error e =>
    rw [hstep, exceptBind_error] at hm2
    cases hm2
  | ok stm2 =>
    rw [hstep, exceptBind_ok] at hm2
    exact (rfold_mono_flags s2 stm2 st hm2).1 (rStep_dir1D hstep)

/-- A file that contains a `LUT_3D_SIZE` directive and parses successfully
has the `has_3D` flag set. -/
theorem rParse_has3D_of_directive (p : String) (file : LUTFile)
    (st : RState) (rest : List Token)
    (hmem : FLine.toks (.str "LUT_3D_SIZE" :: rest) ∈ file)
    (h : rParse p file = .ok st) : st.has3D = true := by
  obtain ⟨s1, s2, rfl⟩ := List.append_of_mem hmem
  obtain ⟨stm, _, hm2⟩ := rfold_append_split s1 _ (rInit p) st h
  rw [List.foldlM_cons] at hm2
  cases hstep : rStep stm (.toks (.str "LUT_3D_SIZE" :: rest)) with
  | error e =>
    rw [hstep, exceptBind_error] at hm2
    cases hm2
  | ok stm2 =>
    rw [hstep, exceptBind_ok] at hm2
    exact (rfold_mono_flags s2 stm2 st hm2).2 (rStep_dir3D hstep)

/-- C3: a Resolve `.cube` file carrying both a `LUT_1D_SIZE n1` and a
`LUT_3D_SIZE n3` directive parses into a two-element `LUTSequence`: the
first element is a `LUT3x1D` of size `n1` built from the first `n1` data
rows (the shaper), the second a `LUT3D` of size `n3` built from all
subsequent data rows reshaped first-axis-fastest (the cube). -/
theorem C3_resolve_composite_sequence (p : String) (file : LUTFile)
    (st : RState) (tbl : List (List ℚ)) (v : List V3) (r1 r3 : List Token)
    (hp : rParse p file = .ok st)
    (hd1 : FLine.toks (.str "LUT_1D_SIZE" :: r1) ∈ file)
    (hd3 : FLine.toks (.str "LUT_3D_SIZE" :: r3) ∈ file)
    (ht : asFloatTable st.data = .ok tbl) (hv : toV3Rows tbl = .ok v)
    (hlen : v.length = st.size3x1D.toNat
      + st.size3D.toNat * st.size3D.toNat * st.size3D.toNat) :
    ∃ (l1 : LUT3x1D) (l3 : LUT3D),
      read_LUT_ResolveCube p file = .ok (.seq [.threeX1D l1, .threeD l3])
      ∧ l1.table = v.take st.size3x1D.toNat
      ∧ l1.size = st.size3x1D.toNat
      ∧ l3.size = st.size3D.toNat
      ∧ l3.table = reshapeF st.size3D.toNat (v.drop st.size3x1D.toNat) := by
  have h1 := rParse_has3x1D_of_directive p file st r1 hd1 hp
  have h3 := rParse_has3D_of_directive p file st r3 hd3 hp
  refine ⟨⟨v.take st.size3x1D.toNat, st.title ++ " - Shaper",
      st.domain3x1D.getD defaultDomain3, []⟩,
    ⟨st.size3D.toNat, reshapeF st.size3D.toNat (v.drop st.size3x1D.toNat),
      st.title ++ " - Cube", st.domain3D.getD defaultDomain3, st.comments⟩,
    read_resolve_composite p file st tbl v hp h1 h3 ht hv hlen,
    rfl, ?_, rfl, rfl⟩
  show (v.take st.size3x1D.toNat).length = st.size3x1D.toNat
  rw [List.length_take, hlen]
  omega

/-- The composite file of the spec example: `LUT_1D_SIZE 10`,
`LUT_3D_SIZE 3`, then 10 + 27 data rows. -/
def c3File : LUTFile :=
  .toks [.str "LUT_1D_SIZE", .num 10]
    :: .toks [.str "LUT_3D_SIZE", .num 3]
    :: ((List.range 37).map fun (m : ℕ) =>
          .toks [.num ((m : ℚ)), .num ((m : ℚ)), .num ((m : ℚ))])

/-- The parse state `c3File` produces. -/
def c3St : RState :=
  ⟨"p", none, none, 10, 3,
    (List.range 37).map fun (m : ℕ) =>
      [.num ((m : ℚ)), .num ((m : ℚ)), .num ((m : ℚ))],
    [], true, true⟩

/-- The float rows of `c3File`. -/
def c3Rows : List V3 := (List.range 37).map fun (m : ℕ) => ((m : ℚ), (m : ℚ), (m : ℚ))

/-- Witness for C3: the spec example `LUT_1D_SIZE 10` + `LUT_3D_SIZE 3`
parses into a `LUT3x1D` of size 10 followed by a `LUT3D` of size 3. -/
theorem C3_witness :
    ∃ (l1 : LUT3x1D) (l3 : LUT3D),
      read_LUT_ResolveCube "p" c3File = .ok (.seq [.threeX1D l1, .threeD l3])
      ∧ l1.table = c3Rows.take c3St.size3x1D.toNat
      ∧ l1.size = c3St.size3x1D.toNat
      ∧ l3.size = c3St.size3D.toNat
      ∧ l3.table = reshapeF c3St.size3D.toNat (c3Rows.drop c3St.size3x1D.toNat) :=
  C3_resolve_composite_sequence "p" c3File c3St
    ((List.range 37).map fun (m : ℕ) => [((m : ℚ)), ((m : ℚ)), ((m : ℚ))])
    c3Rows [.num 10] [.num 3] (by decide!) (by decide!) (by decide!)
    (by decide!) (by decide!) (by decide!)

/-- C10: when `read_LUT_ResolveCube` parses a composite (shaper + cube)
file, every comment line found anywhere in the file is attached — in file
order — to the second (`LUT3D` cube) element of the returned sequence,
while the first (shaper) element is constructed with no comments at all. -/
theorem C10_resolve_composite_comments_to_cube (p : String) (file : LUTFile)
    (st : RState) (tbl : List (List ℚ)) (v : List V3) (r1 r3 : List Token)
    (hp : rParse p file = .ok st)
    (hd1 : FLine.toks (.str "LUT_1D_SIZE" :: r1) ∈ file)
    (hd3 : FLine.toks (.str "LUT_3D_SIZE" :: r3) ∈ file)
    (ht : asFloatTable st.data = .ok tbl) (hv : toV3Rows tbl = .ok v)
    (hlen : v.length = st.size3x1D.toNat
      + st.size3D.toNat * st.size3D.toNat * st.size3D.toNat) :
    ∃ (l1 : LUT3x1D) (l3 : LUT3D),
      read_LUT_ResolveCube p file = .ok (.seq [.threeX1D l1, .threeD l3])
      ∧ l1.comments = []
      ∧ l3.comments = file.flatMap lineComment := by
  have h1 := rParse_has3x1D_of_directive p file st r1 hd1 hp
  have h3 := rParse_has3D_of_directive p file st r3 hd3 hp
  refine ⟨⟨v.take st.size3x1D.toNat, st.title ++ " - Shaper",
      st.domain3x1D.getD defaultDomain3, []⟩,
    ⟨st.size3D.toNat, reshapeF st.size3D.toNat (v.drop st.size3x1D.toNat),
      st.title ++ " - Cube", st.domain3D.getD defaultDomain3, st.comments⟩,
    read_resolve_composite p file st tbl v hp h1 h3 ht hv hlen,
    rfl, ?_⟩
  exact rParse_comments p file st hp

/-- A small composite file with comments scattered through it. -/
def c10File : LUTFile :=
  [.comment " first ", .toks [.str "LUT_1D_SIZE", .num 2],
    .toks [.str "LUT_3D_SIZE", .num 2], .comment "middle"]
  ++ ((List.range 10).map fun (m : ℕ) =>
        .toks [.num ((m : ℚ)), .num ((m : ℚ)), .num ((m : ℚ))])
  ++ [.comment "last"]

/-- The parse state `c10File` produces. -/
def c10St : RState :=
  ⟨"p", none, none, 2, 2,
    (List.range 10).map fun (m : ℕ) =>
      [.num ((m : ℚ)), .num ((m : ℚ)), .num ((m : ℚ))],
    ["first", "middle", "last"], true, true⟩

/-- The float rows of `c10File`. -/
def c10Rows : List V3 := (List.range 10).map fun (m : ℕ) => ((m : ℚ), (m : ℚ), (m : ℚ))

/-- Witness for C10: on `c10File` the three comments (in file order, each
stripped) all land on the cube element; the shaper has none. -/
theorem C10_witness :
    ∃ (l1 : LUT3x1D) (l3 : LUT3D),
      read_LUT_ResolveCube "p" c10File = .ok (.seq [.threeX1D l1, .threeD l3])
      ∧ l1.comments = []
      ∧ l3.comments = c10File.flatMap lineComment :=
  C10_resolve_composite_comments_to_cube "p" c10File c10St
    ((List.range 10).map fun (m : ℕ) => [((m : ℚ)), ((m : ℚ)), ((m : ℚ))])
    c10Rows [.num 2] [.num 2] (by decide!) (by decide!) (by decide!)
    (by decide!) (by decide!) (by decide!)

/-- A line that is not a `LUT_1D_SIZE` or `LUT_3D_SIZE` directive. -/
def noSizeDirective (l : FLine) : Prop :=
  ∀ rest : List Token,
    l ≠ .toks (.str "LUT_1D_SIZE" :: rest) ∧ l ≠ .toks (.str "LUT_3D_SIZE" :: rest)

theorem rStep_ok_flags {st0 st1 : RState} {l : FLine}
    (h : rStep st0 l = .ok st1) (hno : noSizeDirective l) :
    st1.has3x1D = st0.has3x1D ∧ st1.has3D = st0.has3D := by
  cases l with
  | comment c =>
    rw [rStep_comment_eq] at h
    cases h
    exact ⟨rfl, rfl⟩
  | toks ts =>
    cases ts with
    | nil =>
      rw [rStep_nil_eq] at h
      cases h
      exact ⟨rfl, rfl⟩
    | cons t0 rest =>
      rw [rStep_toks_eq] at h
      split_ifs at h with hc1 hc2 hc3 hc4 hc5
      · cases h; exact ⟨rfl, rfl⟩
      · cases hq : tokensToQs rest with
        | ok qs => rw [hq] at h; cases h; exact ⟨rfl, rfl⟩
        | error e => rw [hq] at h; cases h
      · cases hq : tokensToQs rest with
        | ok qs => rw [hq] at h; cases h; exact ⟨rfl, rfl⟩
        | error e => rw [hq] at h; cases h
      · exact absurd (by rw [hc4]) (hno rest).1
      · exact absurd (by rw [hc5]) (hno rest).2
      · cases h; exact ⟨rfl, rfl⟩

theorem rfold_flags (file : LUTFile) (hfile : ∀ l ∈ file, noSizeDirective l) :
    ∀ st0 st1 : RState, List.foldlM rStep st0 file = .ok st1 →
      st1.has3x1D = st0.has3x1D ∧ st1.has3D = st0.has3D := by
  induction file with
  | nil =>
    intro st0 st1 h
    have h' : (.ok st0 : Except PyErr RState) = .ok st1 := h
    cases h'
    exact ⟨rfl, rfl⟩
  | cons l file ih =>
    intro st0 st1 h
    rw [List.foldlM_cons] at h
    cases hstep : rStep st0 l with
    | error e =>
      rw [hstep, exceptBind_error] at h
      cases h
    | ok stm =>
      rw [hstep, exceptBind_ok] at h
      have h1 := rStep_ok_flags hstep (hfile l (List.mem_cons_self l file))
      have h2 := ih (fun l0 hl0 => hfile l0 (List.mem_cons_of_mem l hl0)) stm st1 h
      exact ⟨h2.1.trans h1.1, h2.2.trans h1.2⟩

theorem rParse_flags_false (p : String) (file : LUTFile) (st : RState)
    (hfile : ∀ l ∈ file, noSizeDirective l) (h : rParse p file = .ok st) :
    st.has3x1D = false ∧ st.has3D = false :=
  rfold_flags file hfile (rInit p) st h

theorem read_resolve_err (p : String) (file : LUTFile) (e : PyErr)
    (h : rParse p file = .error e) :
    read_LUT_ResolveCube p file = .error e := by
  unfold read_LUT_ResolveCube
  rw [h]

theorem resolveBuild_err (st : RState) (e : PyErr)
    (h : asFloatTable st.data = .error e) :
    resolveBuild st = .error e := by
  unfold resolveBuild
  rw [h]

/-- The dispatch codec record whose `"Resolve Cube"` and `"Sony SPI3D"`
entries are the models verified here; the four codecs whose sources are
not under `src/` are stubs (their behaviour is irrelevant to the claims
settled through this record). -/
def modelReadCodecs (p : String) : ReadCodecs :=
  { cinespace := fun _ => .error (.keyError "codec not modelled")
    iridas := fun _ => .error (.keyError "codec not modelled")
    resolve := read_LUT_ResolveCube p
    spi1d := fun _ => .error (.keyError "codec not modelled")
    spi3d := fun f =>
      match read_LUT_SonySPI3D p f with
      | .ok l => .ok (.node (.threeD l))
      | .error e => .error e
    spimtx := fun _ => .error (.keyError "codec not modelled") }

theorem read_LUT_eq_of_method (c : ReadCodecs) (ext : String) (file : LUTFile)
    (method : Option String) (m : String)
    (h : resolvedReadMethod ext method = .ok m) :
    read_LUT c ext file method
      = match readMethodFn c m file with
        | .error (.valueError msg) =>
          if m = "iridas cube" then c.resolve file
          else .error (.valueError msg)
        | r => r := by
  unfold read_LUT
  rw [h]

theorem read_LUT_explicit_resolve (c : ReadCodecs) (ext : String)
    (file : LUTFile) :
    read_LUT c ext file (some "Resolve Cube") = c.resolve file := by
  have hm : resolvedReadMethod ext (some "Resolve Cube") = .ok "resolve cube" := by
    show validate_method "Resolve Cube" LUT_READ_METHOD_NAMES = .ok "resolve cube"
    decide
  rw [read_LUT_eq_of_method c ext file _ _ hm]
  have hf : readMethodFn c "resolve cube" = c.resolve := rfl
  rw [hf]
  cases hr : c.resolve file with
  | ok v => rfl
  | error e =>
    cases e with
    | valueError msg =>
      show (if ("resolve cube" : String) = "iridas cube" then c.resolve file
        else .error (.valueError msg)) = .error (.valueError msg)
      rw [if_neg (by decide)]
    | assertionError msg => rfl
    | keyError msg => rfl
    | indexError msg => rfl
    | unboundLocalError msg => rfl

/-- C8: a Resolve `.cube` file containing neither a `LUT_1D_SIZE` nor a
`LUT_3D_SIZE` directive makes `read_LUT_ResolveCube` fail (with neither
flag set, `return LUT` hits an unassigned variable; a malformed data table
fails even earlier in `as_float_array`), and reading such a file through
the dispatch layer with the `"Resolve Cube"` method surfaces the same
error to the caller unchanged — no retry takes place. -/
theorem C8_resolve_missing_size_directives (p ext : String) (file : LUTFile)
    (hfile : ∀ l ∈ file, noSizeDirective l) :
    ∃ e : PyErr,
      read_LUT_ResolveCube p file = .error e
      ∧ read_LUT (modelReadCodecs p) ext file (some "Resolve Cube") = .error e := by
  suffices h : ∃ e, read_LUT_ResolveCube p file = .error e by
    obtain ⟨e, he⟩ := h
    refine ⟨e, he, ?_⟩
    rw [read_LUT_explicit_resolve]
    exact he
  cases hparse : rParse p file with
  | error e => exact ⟨e, read_resolve_err p file e hparse⟩
  | ok st =>
    obtain ⟨hf1, hf3⟩ := rParse_flags_false p file st hfile hparse
    rw [read_resolve_eq_of_parse p file st hparse]
    cases htbl : asFloatTable st.data with
    | error e => exact ⟨e, resolveBuild_err st e htbl⟩
    | ok tbl =>
      refine ⟨.unboundLocalError "local variable referenced before assignment", ?_⟩
      rw [resolveBuild_eq_of_table st tbl htbl, hf1, hf3]
      simp

/-- Witness for C8: a file holding a title and one data row but no size
directive is rejected, directly and through the dispatch layer. -/
theorem C8_witness :
    ∃ e : PyErr,
      read_LUT_ResolveCube "p"
          [.toks [.str "TITLE", .str "\"t\""],
            .toks [.num 1, .num 2, .num 3]] = .error e
      ∧ read_LUT (modelReadCodecs "p") ".cube"
          [.toks [.str "TITLE", .str "\"t\""],
            .toks [.num 1, .num 2, .num 3]] (some "Resolve Cube") = .error e :=
  C8_resolve_missing_size_directives "p" ".cube"
    [.toks [.str "TITLE", .str "\"t\""], .toks [.num 1, .num 2, .num 3]]
    (by
      intro l hl
      simp only [List.mem_cons, List.not_mem_nil, or_false] at hl
      intro rest
      rcases hl with rfl | rfl <;> exact ⟨by simp, by simp⟩)

/-- C4: the dispatch layer of `read_LUT`.  When the method (explicit or
derived from the extension) resolves to `"Iridas Cube"` and the codec
raises `ValueError`, `read_LUT` retries exactly once with the
`"Resolve Cube"` codec and returns its outcome as is — a failure of the
retry propagates.  Any non-`ValueError` failure of the Iridas codec
propagates unchanged, and for every other resolved method the outcome of
the codec — `ValueError` included — is returned without any retry. -/
theorem C4_read_LUT_iridas_fallback (c : ReadCodecs) (ext : String)
    (file : LUTFile) (method : Option String) :
    (∀ msg : String, resolvedReadMethod ext method = .ok "iridas cube" →
      c.iridas file = .error (.valueError msg) →
      read_LUT c ext file method = c.resolve file)
    ∧ (∀ e : PyErr, resolvedReadMethod ext method = .ok "iridas cube" →
      c.iridas file = .error e → (∀ msg, e ≠ .valueError msg) →
      read_LUT c ext file method = .error e)
    ∧ (∀ m : String, resolvedReadMethod ext method = .ok m →
      m ≠ "iridas cube" →
      read_LUT c ext file method = readMethodFn c m file) := by
  refine ⟨?_, ?_, ?_⟩
  · intro msg hm hi
    rw [read_LUT_eq_of_method c ext file method _ hm]
    have hf : readMethodFn c "iridas cube" = c.iridas := rfl
    rw [hf, hi]
    show (if ("iridas cube" : String) = "iridas cube" then c.resolve file
      else .error (.valueError msg)) = c.resolve file
    rw [if_pos rfl]
  · intro e hm hi hne
    rw [read_LUT_eq_of_method c ext file method _ hm]
    have hf : readMethodFn c "iridas cube" = c.iridas := rfl
    rw [hf, hi]
    cases e with
    | valueError msg => exact absurd rfl (hne msg)
    | assertionError msg => rfl
    | keyError msg => rfl
    | indexError msg => rfl
    | unboundLocalError msg => rfl
  · intro m hm hnm
    rw [read_LUT_eq_of_method c ext file method _ hm]
    cases hr : readMethodFn c m file with
    | ok v => rfl
    | error e =>
      cases e with
      | valueError msg =>
        show (if m = "iridas cube" then c.resolve file
          else .error (.valueError msg)) = .error (.valueError msg)
        rw [if_neg hnm]
      | assertionError msg => rfl
      | keyError msg => rfl
      | indexError msg => rfl
      | unboundLocalError msg => rfl

/-- A codec record in which the Iridas codec raises `ValueError` and the
Resolve codec succeeds, as for a Resolve-dialect file with a shaper. -/
def c4Codecs : ReadCodecs :=
  { cinespace := fun _ => .error (.valueError "x")
    iridas := fun _ => .error (.valueError "boom")
    resolve := fun _ => .ok (.seq [])
    spi1d := fun _ => .error (.valueError "x")
    spi3d := fun _ => .error (.valueError "x")
    spimtx := fun _ => .error (.valueError "x") }

/-- Witness for C4: a `.cube` path with no explicit method resolves to
`"iridas cube"`; the `ValueError` there is retried as Resolve Cube and the
retried result is returned. -/
theorem C4_witness : read_LUT c4Codecs ".cube" [] none = c4Codecs.resolve [] :=
  (C4_read_LUT_iridas_fallback c4Codecs ".cube" [] none).1 "boom"
    (by decide) rfl

/-- The validation precondition of `write_LUT_ResolveCube` on the
assembled shaper/cube pair: both domains implicit (2 rows) and exactly
2-valued, shaper size in `[2, 65536]` when a shaper is written, cube size
in `[2, 256]` when a cube is written. -/
def resolveWritePrecond (pr : RPair) : Prop :=
  pr.L0.domain.length = 2 ∧ pr.L1.domain.length = 2
  ∧ uniqueCount pr.L0.domain = 2 ∧ uniqueCount pr.L1.domain = 2
  ∧ (pr.has3x1D = true → 2 ≤ pr.L0.size ∧ pr.L0.size ≤ 65536)
  ∧ (pr.has3D = true → 2 ≤ pr.L1.size ∧ pr.L1.size ≤ 256)

instance (pr : RPair) : Decidable (resolveWritePrecond pr) := by
  unfold resolveWritePrecond
  infer_instance

theorem write_resolve_err_of_assemble (LUT : LUTValue) (d : ℕ) (e : PyErr)
    (h : resolveAssemble LUT = .error e) :
    write_LUT_ResolveCube LUT d = .error e := by
  unfold write_LUT_ResolveCube
  rw [h]

theorem resolveAssemble_err (LUT : LUTValue) (e : PyErr)
    (h : resolveAssemble LUT = .error e) : e = .assertionError seqArityMsg := by
  unfold resolveAssemble at h
  split at h
  · cases h
  · cases h
  · cases h
    rfl
  · cases h
  · cases h
  · cases h

theorem write_checked_ok_iff (pr : RPair) (d : ℕ) :
    (∃ f, (if pr.L0.domain.length ≠ 2 then
          (.error (.assertionError "\"LUT\" domain must be implicit!")
            : Except PyErr LUTFile)
        else if pr.L1.domain.length ≠ 2 then
          .error (.assertionError "\"LUT\" domain must be implicit!")
        else if ¬(uniqueCount pr.L0.domain = 2 ∧ uniqueCount pr.L1.domain = 2) then
          .error (.assertionError "\"LUT\" domain must be 1D!")
        else if pr.has3x1D ∧ ¬(2 ≤ pr.L0.size ∧ pr.L0.size ≤ 65536) then
          .error (.assertionError "Shaper size must be in domain [2, 65536]!")
        else if pr.has3D ∧ ¬(2 ≤ pr.L1.size ∧ pr.L1.size ≤ 256) then
          .error (.assertionError "Cube size must be in domain [2, 256]!")
        else .ok (resolveWriteBody pr d)) = .ok f)
      ↔ resolveWritePrecond pr := by
  constructor
  · rintro ⟨f, hf⟩
    split_ifs at hf with h1 h2 h3 h4 h5
    unfold resolveWritePrecond
    refine ⟨not_not.mp h1, not_not.mp h2, h3.1, h3.2, ?_, ?_⟩
    · intro hhas
      by_contra hnb
      exact h4 ⟨hhas, hnb⟩
    · intro hhas
      by_contra hnb
      exact h5 ⟨hhas, hnb⟩
  · rintro ⟨h1, h2, hu0, hu1, hb0, hb1⟩
    rw [if_neg (not_not_intro h1), if_neg (not_not_intro h2),
      if_neg (not_not_intro ⟨hu0, hu1⟩),
      if_neg (fun h => h.2 (hb0 h.1)), if_neg (fun h => h.2 (hb1 h.1))]
    exact ⟨resolveWriteBody pr d, rfl⟩

/-- C7: `write_LUT_ResolveCube` succeeds exactly when the given value
assembles into a shaper/cube pair (correct sequence arity) whose domains
are implicit (2 rows) and exactly 2-valued and whose written sizes are in
bounds (shaper in `[2, 65536]`, cube in `[2, 256]`); every failure — an
explicit domain, a domain without exactly 2 distinct values, an
out-of-bounds size, or a malformed sequence — is an `attest` validation
error (`AssertionError`), and nothing is written. -/
theorem C7_resolve_write_validation (LUT : LUTValue) (d : ℕ) :
    ((∃ f, write_LUT_ResolveCube LUT d = .ok f)
      ↔ ∃ pr : RPair, resolveAssemble LUT = .ok pr ∧ resolveWritePrecond pr)
    ∧ (∀ e : PyErr, write_LUT_ResolveCube LUT d = .error e →
        ∃ msg, e = .assertionError msg) := by
  cases hasm : resolveAssemble LUT with
  | error e0 =>
    constructor
    · constructor
      · rintro ⟨f, hf⟩
        rw [write_resolve_err_of_assemble LUT d e0 hasm] at hf
        cases hf
      · rintro ⟨pr, hpr, _⟩
        cases hpr
    · intro e he
      rw [write_resolve_err_of_assemble LUT d e0 hasm] at he
      cases he
      exact ⟨seqArityMsg, resolveAssemble_err LUT e0 hasm⟩
  | ok pr =>
    rw [write_resolve_eq_of_assemble LUT d pr hasm]
    constructor
    · rw [write_checked_ok_iff pr d]
      constructor
      · intro hp
        exact ⟨pr, rfl, hp⟩
      · rintro ⟨pr2, hpr2, hp2⟩
        cases hpr2
        exact hp2
    · intro e he
      split_ifs at he
      all_goals (cases he; exact ⟨_, rfl⟩)

/-- Witness for C7: a cube-only write with default domain and size 2
satisfies the precondition and succeeds. -/
theorem C7_witness :
    ∃ f, write_LUT_ResolveCube (.node (.threeD lutW)) 7 = .ok f :=
  (C7_resolve_write_validation (.node (.threeD lutW)) 7).1.mpr
    ⟨⟨placeholder3x1D, lutW, false, true, lutW.name⟩, rfl, by decide⟩

end Colour
